import Mathlib

/-!
Shallow embedding of `onnx_coreml/_operators_nd.py`: the per-operator
ONNX-to-CoreML conversion pass.  Python/numpy values are modelled as follows:
numpy arrays become `Tensor` (a static shape plus flat integer data), the
CoreML `NeuralNetworkBuilder` becomes an append-only list of `Layer` values,
the shared `graph.constants_loaded` set and the layer list form the mutable
`ConvState`, and fatal error paths (raising error-handler calls and Python /
numpy exceptions) become an `Except`-style result.  Converter functions are
written in explicit continuation style with `step`, mirroring the straight-line
Python with early exits.
-/

namespace OnnxCoreml

/-- A numpy array: static shape together with row-major flat data.
Float payloads of the source are modelled as integers; no claim depends on
fractional values. -/
structure Tensor where
  shape : List Nat
  data : List Int
deriving DecidableEq, Repr

/-- Product of a shape's dimensions. -/
def listProd (l : List Nat) : Nat := l.foldr (· * ·) 1

/-- `np.expand_dims(t, axis)`: insert a singleton axis; numpy raises when the
axis is beyond the new rank, modelled as `none`. -/
def npExpandDims (t : Tensor) (axis : Nat) : Option Tensor :=
  if axis ≤ t.shape.length then
    some ⟨t.shape.take axis ++ 1 :: t.shape.drop axis, t.data⟩
  else none

/-- `np.squeeze(t)`: drop all singleton axes. -/
def npSqueeze (t : Tensor) : Tensor :=
  ⟨t.shape.filter (fun d => d ≠ 1), t.data⟩

/-- `np.split(t, n)` along axis 0 into `n` equal chunks; numpy raises on a
0-rank array or a non-divisible leading axis, modelled as `none`. -/
def npSplit (t : Tensor) (n : Nat) : Option (List Tensor) :=
  match t.shape with
  | [] => none
  | s0 :: rest =>
    if n ≠ 0 ∧ s0 % n = 0 then
      let m := s0 / n
      let chunk := m * listProd rest
      some ((List.range n).map fun i => ⟨m :: rest, (t.data.drop (i * chunk)).take chunk⟩)
    else none

/-- Elementwise numpy addition of two same-shape arrays. -/
def npAdd (a b : Tensor) : Tensor :=
  ⟨a.shape, a.data.zipWith (· + ·) b.data⟩

/-- The sentinel `INT_MAX = 2**30` from the source. -/
def INT_MAX : Int := 2 ^ 30

/-- One CoreML layer appended by a `NeuralNetworkBuilder.add_*` call.  Each
constructor keeps the name, input/output tensor names and the parameters the
source passes; constant boolean parameters (`output_all`, `forget_bias`) and
the float clip threshold are omitted from the integer embedding. -/
inductive Layer
  | loadConstantND (name outputName : String) (value : Tensor) (shape : List Int)
  | concatND (name : String) (inputNames : List String) (outputName : String) (axis : Option Int)
  | gatherAlongAxis (name : String) (inputNames : List String) (outputName : String) (axis : Int)
  | expandDims (name inputName outputName : String) (axes : List Int)
  | uniLSTM (name : String) (Wx Wh : List Tensor) (b : Option (List Tensor))
      (hiddenSize : Option Int) (inputSize : Nat)
      (inputNames outputNames : List String)
      (innerActivation cellStateUpdateActivation outputActivation : String)
      (peep : Option String) (coupledInputForgetGate : Bool) (reverseInput : Bool)
  | biDirLSTM (name : String) (Wx Wh : List Tensor) (b : Option (List Tensor))
      (WxBack WhBack : List Tensor) (bBack : Option (List Tensor))
      (hiddenSize : Option Int) (inputSize : Nat)
      (inputNames outputNames : List String)
      (innerActivation cellStateUpdateActivation outputActivation : String)
      (peep peepBack : Option String) (coupledInputForgetGate : Bool)
  | reshapeStatic (name inputName outputName : String) (outputShape : List Int)
  | reshapeDynamic (name : String) (inputNames : List String) (outputName : String)
  | rankPreservingReshape (name inputName outputName : String) (outputShape : List Int)
  | squeezeLayer (name inputName outputName : String) (axes : Option (List Int))
  | transposeLayer (name : String) (axes : List Int) (inputName outputName : String)
  | splitND (name inputName : String) (outputNames : List String) (axis : Int)
  | sliceStatic (name inputName outputName : String)
      (beginIds endIds strides : List Int) (beginMasks endMasks : List Bool)
  | batchedMatMulWeight (name : String) (inputNames : List String) (outputName : String)
      (rows cols : Nat) (W : Tensor)
  | batchedMatMulNames (name : String) (inputNames : List String) (outputName : String)
  | fillStatic (name outputName : String) (outputShape : Tensor) (value : Int)
  | fillDynamic (name inputName outputName : String) (value : Int)
  | getShape (name inputName outputName : String)
  | activation (name inputName outputName : String) (kind : String)
deriving DecidableEq, Repr

/-- The fatal outcomes of a conversion: the error collaborator's fatal calls
(`unsupported_op`, `unsupported_op_configuration`, `missing_initializer`) and
the uncontrolled Python / numpy exceptions the source can raise. -/
inductive ConvErr
  | unsupportedOp (opType : String)
  | unsupportedOpConfiguration (msg : String)
  | missingInitializer (msg : String)
  | pyTypeError (msg : String)
  | pyKeyError (msg : String)
  | pyIndexError (msg : String)
  | pyNameError (msg : String)
  | npError (msg : String)
deriving DecidableEq, Repr

/-- Decidable equality for `Except` results, so concrete runs can be settled
by `decide`. -/
instance {ε α : Type} [DecidableEq ε] [DecidableEq α] : DecidableEq (Except ε α) := fun x y =>
  match x, y with
  | .ok a, .ok b =>
    if h : a = b then .isTrue (by rw [h]) else .isFalse (by intro hh; cases hh; exact h rfl)
  | .error a, .error b =>
    if h : a = b then .isTrue (by rw [h]) else .isFalse (by intro hh; cases hh; exact h rfl)
  | .ok _, .error _ => .isFalse (by intro hh; cases hh)
  | .error _, .ok _ => .isFalse (by intro hh; cases hh)

/-- A typed ONNX attribute value. -/
inductive AttrVal
  | int (i : Int)
  | ints (l : List Int)
  | str (s : String)
  | strs (l : List String)
  | tensor (t : Tensor)
deriving DecidableEq, Repr

/-- One ONNX node as the converters see it. -/
structure Node where
  op_type : String
  name : String
  inputs : List String
  outputs : List String
  attrs : List (String × AttrVal)
  input_tensors : List (String × Tensor)
deriving DecidableEq, Repr

/-- The shared conversion context.  The shape dictionary is read-only here; the
mutable constants-loaded set lives in `ConvState` since it is threaded through
the whole pass. -/
structure Graph where
  shape_dict : List (String × List Nat)
deriving DecidableEq, Repr

/-- Association-list lookup (Python `dict` access / `in` test). -/
def alookup {α : Type} (l : List (String × α)) (k : String) : Option α :=
  (l.find? (fun p => p.1 == k)).map (·.2)

/-- Typed attribute accessors mirroring `node.attrs.get`. -/
def attrInt? (n : Node) (k : String) : Option Int :=
  match alookup n.attrs k with
  | some (.int i) => some i
  | _ => none

/-- List-of-ints attribute accessor. -/
def attrInts? (n : Node) (k : String) : Option (List Int) :=
  match alookup n.attrs k with
  | some (.ints l) => some l
  | _ => none

/-- String attribute accessor (`.decode('utf-8')` of a bytes attribute). -/
def attrStr? (n : Node) (k : String) : Option String :=
  match alookup n.attrs k with
  | some (.str s) => some s
  | _ => none

/-- Tensor attribute accessor. -/
def attrTensor? (n : Node) (k : String) : Option Tensor :=
  match alookup n.attrs k with
  | some (.tensor t) => some t
  | _ => none

/-- Mutable state threaded through a conversion: the builder's accumulated
layers and the shared `graph.constants_loaded` set (as a list of names). -/
structure ConvState where
  layers : List Layer
  constants_loaded : List String
deriving DecidableEq, Repr

/-- A conversion action: state in, state and fallible result out.  Errors keep
the layers already appended, so "fails having emitted N layers" is statable. -/
def ConvM (α : Type) : Type := ConvState → ConvState × Except ConvErr α

/-- Sequencing with early exit on error. -/
def step {α β : Type} (m : ConvM α) (f : α → ConvM β) : ConvM β := fun s =>
  match m s with
  | (s', .ok a) => f a s'
  | (s', .error e) => (s', .error e)

/-- Successful return. -/
def cpure {α : Type} (a : α) : ConvM α := fun s => (s, .ok a)

/-- Fatal exit. -/
def cthrow {α : Type} (e : ConvErr) : ConvM α := fun s => (s, .error e)

/-- Builder append (`builder.add_*`). -/
def emit (l : Layer) : ConvM Unit := fun s =>
  ({ s with layers := s.layers ++ [l] }, .ok ())

/-- `graph.constants_loaded.add(name)`. -/
def markLoaded (n : String) : ConvM Unit := fun s =>
  ({ s with constants_loaded := s.constants_loaded ++ [n] }, .ok ())

/-- Read the current state. -/
def getS : ConvM ConvState := fun s => (s, .ok s)

/-- Python indexing into the `i`-th element of `l` with default (converters
only reach in-range indices on inputs the theorems quantify over). -/
def pyGet (l : List String) (i : Nat) : String := l.getD i ""

/-- The constant-materialization guard shared by Concat and Gather: if input
`idx` is a constant not yet in the loaded set, emit a load-constant layer with
zero-rank promotion to shape `[1]` and record the name. -/
def loadIfConstant (node : Node) (idx : Nat) (layerName : String) : ConvM Unit :=
  step getS fun s =>
  let inp := pyGet node.inputs idx
  match alookup node.input_tensors inp with
  | some value =>
    if s.constants_loaded.contains inp then cpure ()
    else
      step (emit (.loadConstantND layerName inp value
        (if value.shape = [] then [1] else value.shape.map Int.ofNat))) fun _ =>
      markLoaded inp
  | none => cpure ()

/-- The `for i in range(len(node.inputs))` loop of `_convert_concat`. -/
def loadConstantInputs (node : Node) : List Nat → ConvM Unit
  | [] => cpure ()
  | i :: rest =>
    step (loadIfConstant node i (node.name ++ "_load_constant_" ++ toString i)) fun _ =>
    loadConstantInputs node rest

/-- `_convert_concat`. -/
def _convert_concat (node : Node) (_graph : Graph) : ConvM Unit :=
  let axis := attrInt? node "axis"
  step (loadConstantInputs node (List.range node.inputs.length)) fun _ =>
  emit (.concatND node.name node.inputs (pyGet node.outputs 0) axis)

/-- `_convert_constant`.  `node.attrs['value']` raises `KeyError` when absent;
`graph.constants_loaded(node.outputs[0])` calls the set object itself, which
raises `TypeError` in Python after the load layer has been appended. -/
def _convert_constant (node : Node) (_graph : Graph) : ConvM Unit :=
  match attrTensor? node "value" with
  | none => cthrow (.pyKeyError "value")
  | some value =>
    step (emit (.loadConstantND node.name (pyGet node.outputs 0) value
      (if value.shape = [] then [1] else value.shape.map Int.ofNat))) fun _ =>
    cthrow (.pyTypeError "set object is not callable")

/-- `_convert_constant_of_shape`. -/
def _convert_constant_of_shape (node : Node) (_graph : Graph) : ConvM Unit :=
  let value : Int :=
    match alookup node.attrs "value" with
    | some (.tensor t) => t.data.getD 0 0
    | some (.ints l) => l.getD 0 0
    | _ => 0
  match alookup node.input_tensors (pyGet node.inputs 0) with
  | some output_shape =>
    let output_shape :=
      if output_shape.shape.length = 1 then
        ⟨[output_shape.shape.getD 0 0, 1], output_shape.data⟩
      else output_shape
    emit (.fillStatic node.name (pyGet node.outputs 0) output_shape value)
  | none =>
    emit (.fillDynamic node.name (pyGet node.inputs 0) (pyGet node.outputs 0) value)

/-- `_convert_gather`. -/
def _convert_gather (node : Node) (_graph : Graph) : ConvM Unit :=
  let axis := (attrInt? node "axis").getD 0
  step (if node.inputs.length ≠ 2 then
          cthrow (.unsupportedOpConfiguration "Gather expects two inputs")
        else cpure ()) fun _ =>
  step (loadIfConstant node 0 (node.name ++ "_load_data")) fun _ =>
  step (loadIfConstant node 1 (node.name ++ "_load_indices")) fun _ =>
  emit (.gatherAlongAxis node.name [pyGet node.inputs 0, pyGet node.inputs 1]
    (pyGet node.outputs 0) axis)

/-- `_convert_matmul`: a rank-2 constant weight becomes an in-layer parameter;
any other constant weight is loaded unconditionally (no consultation of the
constants-loaded set). -/
def _convert_matmul (node : Node) (_graph : Graph) : ConvM Unit :=
  let weight_name := pyGet node.inputs 1
  match alookup node.input_tensors weight_name with
  | some W =>
    if W.shape.length ≠ 2 then
      step (emit (.loadConstantND (node.name ++ "_const_weight_input") weight_name W
        (W.shape.map Int.ofNat))) fun _ =>
      emit (.batchedMatMulNames node.name [pyGet node.inputs 0, weight_name]
        (pyGet node.outputs 0))
    else
      emit (.batchedMatMulWeight node.name [pyGet node.inputs 0] (pyGet node.outputs 0)
        (W.shape.getD 0 0) (W.shape.getD 1 0) W)
  | none =>
    emit (.batchedMatMulNames node.name [pyGet node.inputs 0, weight_name]
      (pyGet node.outputs 0))

/-- The `new_shape` padding loop of `_convert_reshape`: copy entries up to and
including the first `-1`, then pad with `1`s while the Python loop variable is
below `input rank - 1`. -/
def reshapePad (output_shape : List Int) (lenInput : Nat) : List Int :=
  match output_shape.findIdx? (fun x => x == -1) with
  | some j => output_shape.take (j + 1) ++ List.replicate (lenInput - 1 - j) 1
  | none =>
    let i := if output_shape.length = 0 then 0 else output_shape.length - 1
    output_shape ++ List.replicate (lenInput - 1 - i) 1

/-- `list(range(len(output_shape) - len_of_input_shape, 0))` reversed:
`[-1, -2, ..., -(lenInput - outLen)]`. -/
def squeezeAxesFor (outLen lenInput : Nat) : List Int :=
  (List.range (lenInput - outLen)).map (fun k => -(1 + (k : Int)))

/-- `_convert_reshape`. -/
def _convert_reshape (node : Node) (graph : Graph) : ConvM Unit :=
  let shape_node := pyGet node.inputs 1
  match alookup node.input_tensors shape_node with
  | some shapeT =>
    let output_shape := shapeT.data
    match alookup graph.shape_dict (pyGet node.inputs 0) with
    | none => cthrow (.unsupportedOpConfiguration "Input shape not represented in graph")
    | some inShape =>
      let len_of_input_shape := inShape.length
      if output_shape.length = len_of_input_shape then
        emit (.rankPreservingReshape node.name (pyGet node.inputs 0)
          (pyGet node.outputs 0) output_shape)
      else if len_of_input_shape > output_shape.length then
        let num_zeros := (output_shape.filter (fun x => x == 0)).length
        let num_neg_ones := (output_shape.filter (fun x => x == -1)).length
        if num_neg_ones > 1 then
          cthrow (.unsupportedOpConfiguration "At most one dimension of new shape can be -1")
        else if num_neg_ones + num_zeros = output_shape.length then
          step (emit (.rankPreservingReshape (node.name ++ "_reshape_preserving")
            (pyGet node.inputs 0) (pyGet node.outputs 0 ++ "_reshape_dim_preserved")
            (reshapePad output_shape len_of_input_shape))) fun _ =>
          emit (.squeezeLayer node.name (pyGet node.outputs 0 ++ "_reshape_dim_preserved")
            (pyGet node.outputs 0)
            (some (squeezeAxesFor output_shape.length len_of_input_shape)))
        else
          emit (.reshapeStatic node.name (pyGet node.inputs 0) (pyGet node.outputs 0)
            output_shape)
      else
        emit (.reshapeStatic node.name (pyGet node.inputs 0) (pyGet node.outputs 0)
          output_shape)
  | none =>
    emit (.reshapeDynamic node.name node.inputs (pyGet node.outputs 0))

/-- Python list indexing (negative indices address from the end; out of range
raises, modelled as `none`). -/
def pyAxisIdx (n : Nat) (i : Int) : Option Nat :=
  if 0 ≤ i ∧ i < (n : Int) then some i.toNat
  else if -(n : Int) ≤ i ∧ i < 0 then some ((n : Int) + i).toNat
  else none

/-- The per-axis loop of `_convert_slice`: scatter the given starts and ends
into full-rank arrays and clear the corresponding masks.  The end mask is
cleared when the bound differs from `INT_MAX` OR is below the axis size — the
source's literal disjunction.  A missing or too-short starts/ends attribute
raises in Python, modelled as `none`. -/
def sliceLoop (shape : List Nat) (axes : List Int) (ipS ipE : Option (List Int)) :
    List Nat → List Int → List Int → List Bool → List Bool →
    Option (List Int × List Int × List Bool × List Bool)
  | [], starts, ends, bm, em => some (starts, ends, bm, em)
  | i :: rest, starts, ends, bm, em =>
    match axes.get? i, ipS.bind (·.get? i), ipE.bind (·.get? i) with
    | some ax, some sv, some ev =>
      match pyAxisIdx shape.length ax with
      | some ca =>
        let starts := starts.set ca sv
        let ends := ends.set ca ev
        let em := if ev ≠ INT_MAX ∨ ev < (shape.getD ca 0 : Int) then em.set ca false else em
        let bm := if sv ≠ 0 then bm.set ca false else bm
        sliceLoop shape axes ipS ipE rest starts ends bm em
      | none => none
    | _, _, _ => none

/-- `_convert_slice`. -/
def _convert_slice (node : Node) (graph : Graph) : ConvM Unit :=
  match alookup graph.shape_dict (pyGet node.inputs 0) with
  | none => cthrow (.pyKeyError "shape_dict")
  | some data_shape =>
    let len_of_data := data_shape.length
    let default_axes : List Int := (List.range len_of_data).map Int.ofNat
    let default_steps : List Int := List.replicate len_of_data 1
    let ip_starts := attrInts? node "starts"
    let ip_ends := attrInts? node "ends"
    let axes := (attrInts? node "axes").getD default_axes
    let steps := (attrInts? node "steps").getD default_steps
    match sliceLoop data_shape axes ip_starts ip_ends (List.range axes.length)
        (List.replicate len_of_data 0) (List.replicate len_of_data 0)
        (List.replicate len_of_data true) (List.replicate len_of_data true) with
    | none => cthrow (.pyIndexError "slice starts or ends")
    | some r =>
      emit (.sliceStatic node.name (pyGet node.inputs 0) (pyGet node.outputs 0)
        r.1 r.2.1 steps r.2.2.1 r.2.2.2)

/-- `_convert_split`. -/
def _convert_split (node : Node) (_graph : Graph) : ConvM Unit :=
  let axis := (attrInt? node "axis").getD 0
  emit (.splitND node.name (pyGet node.inputs 0) node.outputs axis)

/-- `_convert_squeeze`. -/
def _convert_squeeze (node : Node) (_graph : Graph) : ConvM Unit :=
  let axes := attrInts? node "axes"
  emit (.squeezeLayer node.name (pyGet node.inputs 0) (pyGet node.outputs 0) axes)

/-- `_convert_shape`. -/
def _convert_shape (node : Node) (_graph : Graph) : ConvM Unit :=
  emit (.getShape node.name (pyGet node.inputs 0) (pyGet node.outputs 0))

/-- `_convert_transpose`: with no `perm` attribute the permutation defaults to
the full axis reversal derived from the input's known rank. -/
def _convert_transpose (node : Node) (graph : Graph) : ConvM Unit :=
  let axes0 := (attrInts? node "perm").getD []
  step (if axes0 = [] then
          match alookup graph.shape_dict (pyGet node.inputs 0) with
          | none => cthrow (.pyKeyError "shape_dict")
          | some shp => cpure ((List.range shp.length).map (fun k => -(1 + (k : Int))))
        else cpure axes0) fun axes =>
  emit (.transposeLayer node.name axes (pyGet node.inputs 0) (pyGet node.outputs 0))

/-- `_convert_unsqueeze`. -/
def _convert_unsqueeze (node : Node) (_graph : Graph) : ConvM Unit :=
  let axes := (attrInts? node "axes").getD []
  emit (.expandDims node.name (pyGet node.inputs 0) (pyGet node.outputs 0) axes)

/-- Modelled from the spec: `_convert_relu` is imported from the sibling
`_operators` module, which is not part of the source under verification; the
spec records only its registry entry, so it is modelled as emitting a single
ReLU activation layer. -/
def _convert_relu (node : Node) (_graph : Graph) : ConvM Unit :=
  emit (.activation node.name (pyGet node.inputs 0) (pyGet node.outputs 0) "RELU")

/-- Safe chunk access into the result of an `np.split`. -/
def tget (l : List Tensor) (i : Nat) : Tensor := l.getD i ⟨[], []⟩

/-- The `get_weights` helper of `_convert_lstm`: repack ONNX gate-order
(input, output, forget, cell) weight chunks into CoreML order
(input, forget, output, cell) and sum the two bias halves per gate.  The
source applies `np.expand_dims` to W and R before its None checks, so a
missing tensor raises a numpy error there and the missing-initializer calls
just below are unreachable. -/
def get_weights (W? : Option Tensor) (_W_name : String) (R? : Option Tensor)
    (_R_name : String) (B? : Option Tensor) :
    Except ConvErr (List Tensor × List Tensor × Option (List Tensor)) :=
  match W? with
  | none => .error (.npError "expand_dims of None")
  | some W0 =>
  match npExpandDims W0 3 with
  | none => .error (.npError "expand_dims axis out of bounds")
  | some W1 =>
  match npExpandDims W1 3 with
  | none => .error (.npError "expand_dims axis out of bounds")
  | some W =>
  match R? with
  | none => .error (.npError "expand_dims of None")
  | some R0 =>
  match npExpandDims R0 3 with
  | none => .error (.npError "expand_dims axis out of bounds")
  | some R1 =>
  match npExpandDims R1 3 with
  | none => .error (.npError "expand_dims axis out of bounds")
  | some R =>
  match npSplit (npSqueeze W) 4 with
  | none => .error (.npError "array split does not result in an equal division")
  | some wc =>
  match npSplit (npSqueeze R) 4 with
  | none => .error (.npError "array split does not result in an equal division")
  | some rc =>
  let W_x := [tget wc 0, tget wc 2, tget wc 1, tget wc 3]
  let W_h := [tget rc 0, tget rc 2, tget rc 1, tget rc 3]
  match B? with
  | none => .ok (W_x, W_h, none)
  | some B =>
    match npSplit (npSqueeze B) 8 with
    | none => .error (.npError "array split does not result in an equal division")
    | some bc =>
      .ok (W_x, W_h, some [npAdd (tget bc 0) (tget bc 4), npAdd (tget bc 2) (tget bc 6),
        npAdd (tget bc 1) (tget bc 5), npAdd (tget bc 3) (tget bc 7)])

/-- The `for i in range(1, add_nodes)` part of the LSTM rank-expansion chain:
three expand-dims layers per step, chained through derived names. -/
def lstmExpandLoop (nodeName in0 input_h input_c : String) (total_dims : Nat) :
    List Nat → ConvM Unit
  | [] => cpure ()
  | i :: rest =>
    step (emit (.expandDims (nodeName ++ "_expand_in_" ++ toString i)
      (in0 ++ "_expand_out_" ++ toString (i - 1)) (in0 ++ "_expand_out_" ++ toString i)
      [Int.ofNat (total_dims + i)])) fun _ =>
    step (emit (.expandDims (nodeName ++ "_expand_in_h_" ++ toString i)
      (input_h ++ "_expand_out_h_" ++ toString (i - 1))
      (input_h ++ "_expand_out_h_" ++ toString i)
      [Int.ofNat (total_dims + i)])) fun _ =>
    step (emit (.expandDims (nodeName ++ "_expand_in_c_" ++ toString i)
      (input_c ++ "_expand_out_c_" ++ toString (i - 1))
      (input_c ++ "_expand_out_c_" ++ toString i)
      [Int.ofNat (total_dims + i)])) fun _ =>
    lstmExpandLoop nodeName in0 input_h input_c total_dims rest

/-- The LSTM `direction` flag: `bidirectional` decodes to 2, anything else
(including the ONNX value `reverse`) leaves the initial value 1. -/
def lstmDirection (node : Node) : Nat :=
  match attrStr? node "direction" with
  | some d => if d = "bidirectional" then 2 else 1
  | none => 1

/-- `hidden_size = node.attrs.get('hidden_size')`. -/
def lstmHiddenSize (node : Node) : Option Int := attrInt? node "hidden_size"

/-- The hidden-size value as used inside shape lists (the source would place
Python `None` there when the attribute is absent; the embedding uses 0). -/
def lstmHS (node : Node) : Int := (lstmHiddenSize node).getD 0

/-- `input_forget = node.attrs.get('input_forget', 0) == 1`. -/
def lstmInputForget (node : Node) : Bool := (attrInt? node "input_forget").getD 0 == 1

/-- `W_name = node.inputs[1]`. -/
def lstmWname (node : Node) : String := pyGet node.inputs 1

/-- `R_name = node.inputs[2]`. -/
def lstmRname (node : Node) : String := pyGet node.inputs 2

/-- `B = node.input_tensors.get(node.inputs[3])` when a fourth input exists. -/
def lstmB? (node : Node) : Option Tensor :=
  if node.inputs.length > 3 then alookup node.input_tensors (pyGet node.inputs 3)
  else none

/-- The node's primary data input name. -/
def lstmIn0 (node : Node) : String := pyGet node.inputs 0

/-- The node's primary output name. -/
def lstmOut0 (node : Node) : String := pyGet node.outputs 0

/-- `input_h`: sixth input when present, else a derived name. -/
def lstmInputH (node : Node) : String :=
  if node.inputs.length > 5 then pyGet node.inputs 5 else lstmIn0 node ++ "_h_input"

/-- `input_c` as first assigned: seventh input when present, else derived. -/
def lstmInputC0 (node : Node) : String :=
  if node.inputs.length > 6 then pyGet node.inputs 6 else lstmIn0 node ++ "_c_input"

/-- `input_c` after the reuse optimization: when fewer than six inputs exist
the synthesized initial hidden state is reused for the cell state. -/
def lstmInputC (node : Node) : String :=
  if node.inputs.length < 6 then lstmInputH node else lstmInputC0 node

/-- `output_h`: second output when present, else a derived name. -/
def lstmOutputH (node : Node) : String :=
  if node.outputs.length > 1 then pyGet node.outputs 1 else lstmOut0 node ++ "_h_output"

/-- `output_c`: third output when present, else a derived name. -/
def lstmOutputC (node : Node) : String :=
  if node.outputs.length > 2 then pyGet node.outputs 2 else lstmOut0 node ++ "_c_output"

/-- Peephole-weights input name (eighth input) when present. -/
def lstmPeepholes0 (node : Node) : Option String :=
  if node.inputs.length > 7 then some (pyGet node.inputs 7) else none

/-- `_convert_lstm`.  `add_nodes` is a Python local assigned only inside the
rank-below-5 branch; reading it when that branch was skipped raises a
name-resolution error, modelled by the `Option Nat` value `add_nodes?`. -/
def _convert_lstm (node : Node) (graph : Graph) : ConvM Unit :=
  step (match alookup node.attrs "activations" with
        | some (.strs acts) =>
          if acts.length < 3 then
            cthrow (.unsupportedOpConfiguration "Less number of activations provided")
          else cpure (acts.getD 0 "", acts.getD 1 "", acts.getD 2 "")
        | _ => cpure ("SIGMOID", "TANH", "TANH")) fun acts =>
  step (match alookup node.input_tensors (lstmWname node) with
        | none => cthrow (.npError "split of None")
        | some W =>
          match npSplit W (lstmDirection node) with
          | none => cthrow (.npError "split")
          | some ws => cpure ws) fun Ws =>
  step (match alookup node.input_tensors (lstmRname node) with
        | none => cthrow (.npError "split of None")
        | some R =>
          match npSplit R (lstmDirection node) with
          | none => cthrow (.npError "split")
          | some rs => cpure rs) fun Rs =>
  step (match lstmB? node with
        | none => cpure [none, none]
        | some B =>
          match npSplit B (lstmDirection node) with
          | none => cthrow (.npError "split")
          | some bs => cpure (bs.map some)) fun Bs =>
  step (match get_weights (Ws.get? 0) (lstmWname node) (Rs.get? 0) (lstmRname node)
          (Bs.getD 0 none) with
        | .error e => cthrow e
        | .ok r => cpure r) fun fw =>
  step (match (tget fw.1 0).shape.get? 1 with
        | none => cthrow (.pyIndexError "shape index 1 out of range")
        | some sz => cpure sz) fun input_size =>
  step (match alookup graph.shape_dict (lstmIn0 node) with
        | none => cthrow (.unsupportedOpConfiguration "Input shape not represented within Graph")
        | some shp => cpure shp) fun inShape =>
  step (match inShape.get? 1 with
        | none => cthrow (.pyIndexError "shape index 1 out of range")
        | some bsz => cpure bsz) fun batch_size =>
  step (if node.inputs.length < 6 then
          emit (.loadConstantND (node.name ++ "_load_initial_h_and_c") (lstmInputH node)
            ⟨[], [0]⟩ [Int.ofNat (lstmDirection node), Int.ofNat batch_size, lstmHS node])
        else cpure ()) fun _ =>
  step (if inShape.length < 5 then
          step (emit (.expandDims (node.name ++ "_expand_in_0") (lstmIn0 node)
            (lstmIn0 node ++ "_expand_out_0") [Int.ofNat inShape.length])) fun _ =>
          step (emit (.expandDims (node.name ++ "_expand_in_h_0") (lstmInputH node)
            (lstmInputH node ++ "_expand_out_h_0") [Int.ofNat inShape.length])) fun _ =>
          step (emit (.expandDims (node.name ++ "_expand_in_c_0") (lstmInputC node)
            (lstmInputC node ++ "_expand_out_c_0") [Int.ofNat inShape.length])) fun _ =>
          step (lstmExpandLoop node.name (lstmIn0 node) (lstmInputH node) (lstmInputC node)
            inShape.length (List.range' 1 (5 - inShape.length - 1))) fun _ =>
          cpure (some (5 - inShape.length))
        else cpure none) fun add_nodes? =>
  step (
    if lstmDirection node = 1 then
      step (match lstmPeepholes0 node with
            | some p =>
              step (emit (.reshapeStatic (node.name ++ "_peephole_reshape") p
                (p ++ "_reshaped") [lstmHS node, lstmHS node, lstmHS node])) fun _ =>
              cpure (some (p ++ "_reshaped"))
            | none => cpure none) fun peepholes =>
      step (match add_nodes? with
            | none => cthrow (.pyNameError "add_nodes")
            | some an => cpure an) fun add_nodes =>
      emit (.uniLSTM node.name fw.1 fw.2.1 fw.2.2 (lstmHiddenSize node) input_size
        [lstmIn0 node ++ "_expand_out_" ++ toString (add_nodes - 1),
         lstmInputH node ++ "_expand_out_h_" ++ toString (add_nodes - 1),
         lstmInputC node ++ "_expand_out_c_" ++ toString (add_nodes - 1)]
        [lstmOut0 node ++ "_5d_out", lstmOutputH node ++ "_5d", lstmOutputC node ++ "_5d"]
        acts.1 acts.2.1 acts.2.2
        peepholes (lstmInputForget node) false)
    else if lstmDirection node = 2 then
      step (if Ws.length ≠ 2 ∧ Rs.length ≠ 2 ∧ Bs.length ≠ 2 then
              cthrow (.unsupportedOpConfiguration
                "Bi-Directional LSTM does not have weights for both the directions")
            else cpure ()) fun _ =>
      step (match get_weights (Ws.get? 1) (lstmWname node) (Rs.get? 1) (lstmRname node)
              (Bs.getD 1 none) with
            | .error e => cthrow e
            | .ok r => cpure r) fun bw =>
      step (match lstmPeepholes0 node with
            | some p =>
              step (emit (.reshapeStatic (node.name ++ "_peephole_reshape") p
                (p ++ "_reshaped")
                [Int.ofNat (lstmDirection node), lstmHS node, lstmHS node, lstmHS node])) fun _ =>
              emit (.splitND (node.name ++ "_peephole_split") (p ++ "_reshaped")
                [p ++ "_f", p ++ "_b"] 0)
            | none => cpure ()) fun _ =>
      step (match add_nodes? with
            | none => cthrow (.pyNameError "add_nodes")
            | some an => cpure an) fun add_nodes =>
      step (emit (.splitND (node.name ++ "_split_h")
        (lstmInputH node ++ "_expand_out_h_" ++ toString (add_nodes - 1))
        [lstmInputH node ++ "_f", lstmInputH node ++ "_b"] 0)) fun _ =>
      step (if lstmInputH node ≠ lstmInputC node then
              emit (.splitND (node.name ++ "_split_c")
                (lstmInputC node ++ "_expand_out_c_" ++ toString (add_nodes - 1))
                [lstmInputC node ++ "_f", lstmInputC node ++ "_b"] 0)
            else cpure ()) fun _ =>
      -- the source passes peep=peephole_f and peep_back=peephole_b, which are
      -- assigned None and never reassigned (the split above writes to the
      -- differently named peepholes_f / peepholes_b), so both are None here
      step (emit (.biDirLSTM node.name fw.1 fw.2.1 fw.2.2 bw.1 bw.2.1 bw.2.2
        (lstmHiddenSize node) input_size
        [lstmIn0 node ++ "_expand_out_" ++ toString (add_nodes - 1),
         lstmInputH node ++ "_f", lstmInputC node ++ "_f",
         lstmInputH node ++ "_b", lstmInputC node ++ "_b"]
        [lstmOut0 node ++ "_5d_out", lstmOutputH node ++ "_f", lstmOutputC node ++ "_f",
         lstmOutputH node ++ "_b", lstmOutputC node ++ "_b"]
        acts.1 acts.2.1 acts.2.2
        none none (lstmInputForget node))) fun _ =>
      step (emit (.concatND (node.name ++ "concat_output_h")
        [lstmOutputH node ++ "_f", lstmOutputH node ++ "_b"]
        (lstmOutputH node ++ "_5d") (some 0))) fun _ =>
      emit (.concatND (node.name ++ "concat_output_c")
        [lstmOutputC node ++ "_f", lstmOutputC node ++ "_b"]
        (lstmOutputC node ++ "_5d") (some 0))
    else
      cthrow (.unsupportedOpConfiguration "Unsupported direction for LSTM")) fun _ =>
  step (emit (.rankPreservingReshape (node.name ++ "_reshape_")
    (lstmOut0 node ++ "_5d_out") (lstmOut0 node ++ "_5d_reshaped")
    [0, 0, Int.ofNat (lstmDirection node), -1, 0])) fun _ =>
  step (emit (.squeezeLayer (node.name ++ "_squeeze_out") (lstmOut0 node ++ "_5d_reshaped")
    (lstmOut0 node ++ "_4d") (some [-1]))) fun _ =>
  step (emit (.transposeLayer (node.name ++ "_transpose") [0, 2, 1, 3]
    (lstmOut0 node ++ "_4d") (lstmOut0 node))) fun _ =>
  step (emit (.squeezeLayer (node.name ++ "_squeeze_out_h") (lstmOutputH node ++ "_5d")
    (lstmOutputH node) (some [-1, -2]))) fun _ =>
  emit (.squeezeLayer (node.name ++ "_squeeze_out_c") (lstmOutputC node ++ "_5d")
    (lstmOutputC node) (some [-1, -2]))

/-- Identifier of a registered converter function. -/
inductive ConverterTag
  | concat | constant | constantOfShape | gather | lstm | matmul | relu
  | reshape | slice | splitOp | shapeOp | squeezeOp | transposeOp | unsqueeze
deriving DecidableEq, Repr

/-- `_ONNX_NODE_REGISTRY_ND`: the dispatch table from ONNX op type to
conversion function. -/
def _ONNX_NODE_REGISTRY_ND : List (String × ConverterTag) :=
  [("Concat", .concat), ("Constant", .constant), ("ConstantOfShape", .constantOfShape),
   ("Gather", .gather), ("LSTM", .lstm), ("MatMul", .matmul), ("Relu", .relu),
   ("Reshape", .reshape), ("Slice", .slice), ("Split", .splitOp), ("Shape", .shapeOp),
   ("Squeeze", .squeezeOp), ("Transpose", .transposeOp), ("Unsqueeze", .unsqueeze)]

/-- The semantics of each registered converter. -/
def applyConverter : ConverterTag → Node → Graph → ConvM Unit
  | .concat => _convert_concat
  | .constant => _convert_constant
  | .constantOfShape => _convert_constant_of_shape
  | .gather => _convert_gather
  | .lstm => _convert_lstm
  | .matmul => _convert_matmul
  | .relu => _convert_relu
  | .reshape => _convert_reshape
  | .slice => _convert_slice
  | .splitOp => _convert_split
  | .shapeOp => _convert_shape
  | .squeezeOp => _convert_squeeze
  | .transposeOp => _convert_transpose
  | .unsqueeze => _convert_unsqueeze

/-- `_get_node_converter_fn`: registry lookup; an unregistered op type hits
the fatal `err.unsupported_op` path. -/
def _get_node_converter_fn (node : Node) : Except ConvErr ConverterTag :=
  match alookup _ONNX_NODE_REGISTRY_ND node.op_type with
  | some f => .ok f
  | none => .error (.unsupportedOp node.op_type)

/-- `_convert_node_nd`: resolve the converter and invoke it. -/
def _convert_node_nd (node : Node) (graph : Graph) : ConvM Unit := fun s =>
  match _get_node_converter_fn node with
  | .ok f => applyConverter f node graph s
  | .error e => (s, .error e)

/-! Predicates on layers and layer lists used by the theorems. -/

/-- Is this layer a load-constant layer producing tensor name `c`? -/
def isLoadOf (c : String) : Layer → Bool
  | .loadConstantND _ o _ _ => o == c
  | _ => false

/-- Number of load-constant layers for name `c` in a layer list. -/
def countLoads (c : String) (ls : List Layer) : Nat := (ls.filter (isLoadOf c)).length

/-- Is this layer a unidirectional LSTM layer? -/
def isUniLSTMLayer : Layer → Bool
  | .uniLSTM .. => true
  | _ => false

/-- Is this layer a bidirectional LSTM layer? -/
def isBiDirLSTMLayer : Layer → Bool
  | .biDirLSTM .. => true
  | _ => false

/-- Is this layer an LSTM layer of either kind? -/
def isLSTMLayer : Layer → Bool
  | .uniLSTM .. => true
  | .biDirLSTM .. => true
  | _ => false

/-- A bidirectional LSTM layer carries no peephole weights (vacuously true for
all other layer kinds). -/
def bidirPeepsNone : Layer → Bool
  | .biDirLSTM _ _ _ _ _ _ _ _ _ _ _ _ _ _ peep peepBack _ =>
    peep == none && peepBack == none
  | _ => true

/-- Input names consumed by a bidirectional LSTM layer (empty otherwise). -/
def bidirInputNames : Layer → List String
  | .biDirLSTM _ _ _ _ _ _ _ _ _ inputNames _ _ _ _ _ _ _ => inputNames
  | _ => []

/-- The two converters that use the guarded constant-materialization helper. -/
inductive GuardedOp
  | concatOp
  | gatherOp
deriving DecidableEq, Repr

/-- Run the selected guarded converter. -/
def runGuarded : GuardedOp → Node → Graph → ConvM Unit
  | .concatOp => _convert_concat
  | .gatherOp => _convert_gather

/-- The spec-side end-mask rule of claim C5, taken from the spec's words:
"end mask true unless the end bound is below the sentinel 2^30 and below that
axis's known static size". -/
def sliceEndMaskSpec (e : Int) (size : Nat) : Bool :=
  !(decide (e < INT_MAX) && decide (e < (size : Int)))

/-- Closed form of the begin masks the slice loop computes (for non-negative
in-range axes): the mask at axis `a` stays true unless some listed axis equals
`a` with a non-zero start. -/
def beginMaskCode (axes ipS : List Int) (a : Nat) : Bool :=
  !((List.range axes.length).any fun j =>
    (axes.getD j 0 == (a : Int)) && (ipS.getD j 0 != 0))

/-- Closed form of the end masks the slice loop computes (for non-negative
in-range axes): the mask at axis `a` is cleared as soon as some listed axis
equals `a` with an end bound that differs from `INT_MAX` or is below the axis
size — the source's literal disjunction. -/
def endMaskCode (shape : List Nat) (axes ipE : List Int) (a : Nat) : Bool :=
  !((List.range axes.length).any fun j =>
    (axes.getD j 0 == (a : Int)) &&
      ((ipE.getD j 0 != INT_MAX) || (ipE.getD j 0 < (shape.getD a 0 : Int))))

/-- The `i`-th of four equal row-chunks of a gate-stacked weight matrix with
`rows` rows and `cols` columns per chunk. -/
def wChunk (t : Tensor) (rows cols i : Nat) : Tensor :=
  ⟨[rows, cols], (t.data.drop (i * (rows * cols))).take (rows * cols)⟩

/-- The `i`-th of eight equal sub-bias slices of length `p` of a combined
LSTM bias vector. -/
def bSub (t : Tensor) (p i : Nat) : List Int := (t.data.drop (i * p)).take p

/-! Concrete instances used by witnesses, counterexamples and code-bug runs. -/

/-- The empty initial conversion state. -/
def state0 : ConvState := ⟨[], []⟩

/-- A shared constant tensor of rank 2. -/
def tensorC1 : Tensor := ⟨[2, 3], [1, 2, 3, 4, 5, 6]⟩

/-- A Concat node consuming the shared constant input "c". -/
def nodeConcatC1 : Node :=
  ⟨"Concat", "cc", ["a", "c"], ["o1"], [("axis", .int 0)], [("c", tensorC1)]⟩

/-- A MatMul node whose second operand is the same shared constant name "c",
bound to a rank-3 tensor so the weight cannot become a layer parameter. -/
def nodeMatmulC1 : Node :=
  ⟨"MatMul", "mm", ["x", "c"], ["o2"], [], [("c", ⟨[1, 2, 3], [1, 2, 3, 4, 5, 6]⟩)]⟩

/-- Graph for the shared-constant scenario. -/
def graphC1 : Graph := ⟨[("x", [4, 4])]⟩

/-- A node with an op type outside the registry. -/
def nodeUnregistered : Node := ⟨"Foo", "f", ["x"], ["y"], [], []⟩

/-- A Constant node carrying a rank-0 attribute tensor. -/
def nodeConstC8 : Node := ⟨"Constant", "k", [], ["ko"], [("value", .tensor ⟨[], [5]⟩)], []⟩

/-- A graph giving the LSTM data input the static shape [4, 3, 2]. -/
def graphX432 : Graph := ⟨[("X", [4, 3, 2])]⟩

/-- A graph giving the LSTM data input a rank-5 static shape. -/
def graphXrank5 : Graph := ⟨[("X", [1, 1, 1, 1, 1])]⟩

/-- A well-formed forward LSTM weight tensor (one direction, four gates of one
row, two input columns). -/
def tensorW1 : Tensor := ⟨[1, 4, 2], [1, 2, 3, 4, 5, 6, 7, 8]⟩

/-- A well-formed forward LSTM recurrence tensor. -/
def tensorR1 : Tensor := ⟨[1, 4, 2], [1, 1, 1, 1, 1, 1, 1, 1]⟩

/-- A combined LSTM bias vector with eight sub-biases of length one. -/
def tensorBW : Tensor := ⟨[1, 8], [1, 2, 3, 4, 5, 6, 7, 8]⟩

/-- An LSTM node whose `direction` attribute is the ONNX value "reverse". -/
def nodeRevC4 : Node :=
  ⟨"LSTM", "L", ["X", "W", "R"], ["Y"],
   [("hidden_size", .int 1), ("direction", .str "reverse")],
   [("W", tensorW1), ("R", tensorR1)]⟩

/-- An LSTM node whose W tensor is absent from the constant-tensor table. -/
def nodeNoW : Node :=
  ⟨"LSTM", "L", ["X", "W", "R"], ["Y"], [("hidden_size", .int 1)], [("R", tensorR1)]⟩

/-- A well-formed forward LSTM node (used to witness the rank-5 failure). -/
def nodeFwd : Node :=
  ⟨"LSTM", "L", ["X", "W", "R"], ["Y"], [("hidden_size", .int 1)],
   [("W", tensorW1), ("R", tensorR1)]⟩

/-- Two-direction LSTM weight, recurrence and bias tensors. -/
def tensorW2 : Tensor := ⟨[2, 4, 2], (List.range 16).map Int.ofNat⟩

/-- Two-direction recurrence tensor. -/
def tensorR2 : Tensor := ⟨[2, 4, 2], (List.range 16).map Int.ofNat⟩

/-- Two-direction combined bias tensor. -/
def tensorB2 : Tensor := ⟨[2, 8], (List.range 16).map Int.ofNat⟩

/-- A bidirectional LSTM node that supplies a peephole-weights input "P". -/
def nodeBidirC10 : Node :=
  ⟨"LSTM", "L", ["X", "W", "R", "B", "sl", "h0", "c0", "P"], ["Y"],
   [("hidden_size", .int 1), ("direction", .str "bidirectional")],
   [("W", tensorW2), ("R", tensorR2), ("B", tensorB2)]⟩

/-- A Slice node whose end bound 100 exceeds the axis size 4 but is far below
the sentinel `2^30`. -/
def nodeSliceC5 : Node :=
  ⟨"Slice", "sl", ["x"], ["so"],
   [("starts", .ints [0]), ("ends", .ints [100]), ("axes", .ints [0])], []⟩

/-- The spec's own slice example: starts=[1], ends=[2], axes=[0]. -/
def nodeSliceWit : Node :=
  ⟨"Slice", "sl", ["x"], ["so"],
   [("starts", .ints [1]), ("ends", .ints [2]), ("axes", .ints [0])], []⟩

/-- A Reshape node whose target shape input is the constant `[0, -1]`. -/
def nodeReshapeC6 : Node :=
  ⟨"Reshape", "rs", ["d", "sh"], ["ro"], [], [("sh", ⟨[2], [0, -1]⟩)]⟩

/-- A graph giving the reshape data input rank 3. -/
def graphD234 : Graph := ⟨[("d", [2, 3, 4])]⟩

/-! Toolkit lemmas about the conversion monad. -/

theorem step_cpure {α β : Type} (a : α) (f : α → ConvM β) :
    step (cpure a) f = f a := rfl

theorem step_cthrow {α β : Type} (e : ConvErr) (f : α → ConvM β) :
    step (cthrow e) f = cthrow e := rfl

/-- An action that always ends in an error. -/
def Fails {α : Type} (m : ConvM α) : Prop := ∀ s, ∃ e, (m s).2 = .error e

theorem fails_cthrow {α : Type} (e : ConvErr) : Fails (cthrow (α := α) e) :=
  fun _ => ⟨e, rfl⟩

theorem fails_step_cont {α β : Type} (m : ConvM α) (f : α → ConvM β)
    (h : ∀ a, Fails (f a)) : Fails (step m f) := by
  intro s
  unfold step
  rcases hm : m s with ⟨s', r⟩
  cases r with
  | ok a => exact h a s'
  | error e => exact ⟨e, rfl⟩

theorem fails_step_left {α β : Type} (m : ConvM α) (f : α → ConvM β)
    (h : Fails m) : Fails (step m f) := by
  intro s
  unfold step
  rcases hm : m s with ⟨s', r⟩
  cases r with
  | ok a =>
    exfalso
    rcases h s with ⟨e, he⟩
    rw [hm] at he
    exact Except.noConfusion he
  | error e => exact ⟨e, rfl⟩

/-- An action only ever appends layers satisfying `P`. -/
def EmitsOnly (P : Layer → Prop) {α : Type} (m : ConvM α) : Prop :=
  ∀ s, ∀ l ∈ ((m s).1).layers, l ∈ s.layers ∨ P l

theorem emitsOnly_cpure {P : Layer → Prop} {α : Type} (a : α) :
    EmitsOnly P (cpure a) := fun _ _ hl => Or.inl hl

theorem emitsOnly_cthrow {P : Layer → Prop} {α : Type} (e : ConvErr) :
    EmitsOnly P (cthrow (α := α) e) := fun _ _ hl => Or.inl hl

theorem emitsOnly_getS {P : Layer → Prop} : EmitsOnly P getS :=
  fun _ _ hl => Or.inl hl

theorem emitsOnly_markLoaded {P : Layer → Prop} (n : String) :
    EmitsOnly P (markLoaded n) := fun _ _ hl => Or.inl hl

theorem emitsOnly_emit {P : Layer → Prop} {l : Layer} (h : P l) :
    EmitsOnly P (emit l) := by
  intro s l' hl'
  simp only [emit, List.mem_append, List.mem_singleton] at hl'
  rcases hl' with hl' | rfl
  · exact Or.inl hl'
  · exact Or.inr h

theorem emitsOnly_step {P : Layer → Prop} {α β : Type} {m : ConvM α} {f : α → ConvM β}
    (hm : EmitsOnly P m) (hf : ∀ a, EmitsOnly P (f a)) : EmitsOnly P (step m f) := by
  intro s l hl
  unfold step at hl
  rcases hms : m s with ⟨s', r⟩
  rw [hms] at hl
  cases r with
  | ok a =>
    rcases hf a s' l hl with h | h
    · have := hm s l
      rw [hms] at this
      exact this h
    · exact Or.inr h
  | error e =>
    have := hm s l
    rw [hms] at this
    exact this hl

theorem emitsOnly_lstmExpandLoop {P : Layer → Prop}
    (hP : ∀ n i o a, P (.expandDims n i o a))
    (nodeName in0 input_h input_c : String) (total_dims : Nat) (is : List Nat) :
    EmitsOnly P (lstmExpandLoop nodeName in0 input_h input_c total_dims is) := by
  induction is with
  | nil => exact emitsOnly_cpure ()
  | cons i rest ih =>
    exact emitsOnly_step (emitsOnly_emit (hP _ _ _ _)) fun _ =>
      emitsOnly_step (emitsOnly_emit (hP _ _ _ _)) fun _ =>
      emitsOnly_step (emitsOnly_emit (hP _ _ _ _)) fun _ => ih

/-! Claim theorems. -/

/-- C2: for every node whose op type is registered, `_convert_node_nd` invokes
exactly the registered conversion function; for every other op type it takes
the fatal unsupported-operator path and emits no layer. -/
theorem dispatch_routes_registry (node : Node) (graph : Graph) (s : ConvState) :
    (∀ tag, alookup _ONNX_NODE_REGISTRY_ND node.op_type = some tag →
      _get_node_converter_fn node = .ok tag ∧
      _convert_node_nd node graph s = applyConverter tag node graph s) ∧
    (alookup _ONNX_NODE_REGISTRY_ND node.op_type = none →
      _get_node_converter_fn node = .error (.unsupportedOp node.op_type) ∧
      _convert_node_nd node graph s = (s, .error (.unsupportedOp node.op_type))) := by
  constructor
  · intro tag h
    have hfn : _get_node_converter_fn node = .ok tag := by
      unfold _get_node_converter_fn
      rw [h]
    exact ⟨hfn, by unfold _convert_node_nd; rw [hfn]⟩
  · intro h
    have hfn : _get_node_converter_fn node = .error (.unsupportedOp node.op_type) := by
      unfold _get_node_converter_fn
      rw [h]
    exact ⟨hfn, by unfold _convert_node_nd; rw [hfn]⟩

/-- Witness for C2: dispatch at the registered op "LSTM" and at the
unregistered op "Foo". -/
theorem dispatch_routes_registry_witness :
    (_get_node_converter_fn nodeFwd = .ok .lstm ∧
      _convert_node_nd nodeFwd graphX432 state0 =
        applyConverter .lstm nodeFwd graphX432 state0) ∧
    (_get_node_converter_fn nodeUnregistered = .error (.unsupportedOp "Foo") ∧
      _convert_node_nd nodeUnregistered graphX432 state0 =
        (state0, .error (.unsupportedOp "Foo"))) :=
  ⟨(dispatch_routes_registry nodeFwd graphX432 state0).1 .lstm (by decide),
   (dispatch_routes_registry nodeUnregistered graphX432 state0).2 (by decide)⟩

/-- C6: a Reshape node with constant target shape `[0, -1]` on a rank-3 input
emits exactly a rank-preserving reshape to `[0, -1, 1]` followed by a squeeze
of the padding axis, leaving rank 3 - 1 = 2. -/
theorem reshape_rank3_to_rank2_two_stage (node : Node) (graph : Graph) (s : ConvState)
    (shapeT : Tensor) (ds : List Nat)
    (hsh : alookup node.input_tensors (pyGet node.inputs 1) = some shapeT)
    (hdata : shapeT.data = [0, -1])
    (hds : alookup graph.shape_dict (pyGet node.inputs 0) = some ds)
    (hrank : ds.length = 3) :
    _convert_reshape node graph s =
      ({ s with layers := s.layers ++
        [.rankPreservingReshape (node.name ++ "_reshape_preserving") (pyGet node.inputs 0)
          (pyGet node.outputs 0 ++ "_reshape_dim_preserved") [0, -1, 1],
         .squeezeLayer node.name (pyGet node.outputs 0 ++ "_reshape_dim_preserved")
          (pyGet node.outputs 0) (some [-1])] }, .ok ()) ∧
    ds.length - (squeezeAxesFor shapeT.data.length ds.length).length = 2 := by
  constructor
  · unfold _convert_reshape
    simp only [hsh, hds, hdata, hrank]
    norm_num [reshapePad, squeezeAxesFor, step, emit, cpure, List.append_assoc]
    decide
  · simp only [hdata, hrank]
    decide

/-- Witness for C6 at a concrete Reshape node over input shape [2, 3, 4]. -/
theorem reshape_rank3_to_rank2_two_stage_witness :
    _convert_reshape nodeReshapeC6 graphD234 state0 =
      ({ state0 with layers := state0.layers ++
        [.rankPreservingReshape "rs_reshape_preserving" "d" "ro_reshape_dim_preserved"
          [0, -1, 1],
         .squeezeLayer "rs" "ro_reshape_dim_preserved" "ro" (some [-1])] }, .ok ()) ∧
    (3 : Nat) - (squeezeAxesFor 2 3).length = 2 :=
  reshape_rank3_to_rank2_two_stage nodeReshapeC6 graphD234 state0 ⟨[2], [0, -1]⟩ [2, 3, 4]
    (by decide) (by decide) (by decide) (by decide)

/-- C1 counterexample: a Concat node and a MatMul node share the constant
input "c"; the pass emits two load-constant layers for that name, because the
MatMul converter materializes its constant weight without consulting the
constants-loaded set. -/
theorem shared_constant_reloaded_by_matmul :
    countLoads "c" ((_convert_node_nd nodeMatmulC1 graphC1
      ((_convert_node_nd nodeConcatC1 graphC1 state0).1)).1.layers) = 2 := by decide

/-- C4 failing-input run: an LSTM node with `direction = "reverse"` converts
without error and emits exactly one unidirectional (forward) LSTM layer,
instead of the fatal unsupported-direction error with zero layers that the
claim requires; the source's unsupported-direction branch is unreachable. -/
theorem lstm_reverse_direction_treated_as_forward :
    (_convert_lstm nodeRevC4 graphX432 state0).2 = .ok () ∧
    ((_convert_lstm nodeRevC4 graphX432 state0).1.layers.filter isUniLSTMLayer).length = 1 ∧
    ((_convert_lstm nodeRevC4 graphX432 state0).1.layers.filter isBiDirLSTMLayer).length = 0 ∧
    attrStr? nodeRevC4 "direction" = some "reverse" := by decide

/-- C7 failing-input run: an LSTM node whose W tensor is missing from the
constant table fails inside `np.split(None, direction)` with a numpy error —
not with the missing-initializer diagnostic — having emitted no layer. -/
theorem lstm_missing_W_crashes_before_missing_initializer :
    _convert_lstm nodeNoW graphX432 state0 = (state0, .error (.npError "split of None")) := by
  decide

/-- C8 failing-input run: a Constant node emits exactly one load-constant
layer (with the rank-0 value promoted to shape [1]) and then crashes with a
TypeError, because the source calls the constants-loaded set object instead of
inserting into it; the output name is never recorded as loaded. -/
theorem constant_converter_load_then_type_error :
    _convert_constant nodeConstC8 graphC1 state0 =
      ({ layers := [.loadConstantND "k" "ko" ⟨[], [5]⟩ [1]], constants_loaded := [] },
       .error (.pyTypeError "set object is not callable")) := by decide

/-- C3: `get_weights` splits W and R into four equal gate chunks given in ONNX
gate order (input, output, forget, cell) and returns them reordered as
(input, forget, output, cell); a combined bias of 8 equal chunks (4 input-side
then 4 recurrent-side) yields per-gate biases that are the elementwise sums of
the matching input-side and recurrent-side sub-biases, in the same reordering. -/
theorem get_weights_gate_reorder_and_bias_sum (h n m p : Nat) (W R B : Tensor)
    (Wn Rn : String) (_hh : 1 ≤ h) (hn : 2 ≤ n) (hm : 2 ≤ m)
    (hWs : W.shape = [1, 4 * h, n]) (hRs : R.shape = [1, 4 * h, m])
    (hBs : B.shape = [1, 8 * p]) :
    get_weights (some W) Wn (some R) Rn (some B) =
      .ok ([wChunk W h n 0, wChunk W h n 2, wChunk W h n 1, wChunk W h n 3],
           [wChunk R h m 0, wChunk R h m 2, wChunk R h m 1, wChunk R h m 3],
           some [⟨[p], List.zipWith (· + ·) (bSub B p 0) (bSub B p 4)⟩,
                 ⟨[p], List.zipWith (· + ·) (bSub B p 2) (bSub B p 6)⟩,
                 ⟨[p], List.zipWith (· + ·) (bSub B p 1) (bSub B p 5)⟩,
                 ⟨[p], List.zipWith (· + ·) (bSub B p 3) (bSub B p 7)⟩]) := by
  have h1 : (4 : Nat) * h ≠ 1 := by omega
  have h2 : n ≠ 1 := by omega
  have h3 : m ≠ 1 := by omega
  have h4 : (8 : Nat) * p ≠ 1 := by omega
  have hdiv4 : 4 * h / 4 = h := Nat.mul_div_cancel_left h (by norm_num)
  have hdiv8 : 8 * p / 8 = p := Nat.mul_div_cancel_left p (by norm_num)
  have eW1 : npExpandDims W 3 = some ⟨[1, 4 * h, n, 1], W.data⟩ := by
    simp [npExpandDims, hWs]
  have eW2 : npExpandDims (⟨[1, 4 * h, n, 1], W.data⟩ : Tensor) 3 =
      some ⟨[1, 4 * h, n, 1, 1], W.data⟩ := by
    simp [npExpandDims]
  have eWq : npSqueeze (⟨[1, 4 * h, n, 1, 1], W.data⟩ : Tensor) = ⟨[4 * h, n], W.data⟩ := by
    simp [npSqueeze, h1, h2]
  have eWs : npSplit (⟨[4 * h, n], W.data⟩ : Tensor) 4 =
      some [wChunk W h n 0, wChunk W h n 1, wChunk W h n 2, wChunk W h n 3] := by
    simp [npSplit, wChunk, listProd, List.range_succ, Nat.mul_mod_right, hdiv4]
  have eR1 : npExpandDims R 3 = some ⟨[1, 4 * h, m, 1], R.data⟩ := by
    simp [npExpandDims, hRs]
  have eR2 : npExpandDims (⟨[1, 4 * h, m, 1], R.data⟩ : Tensor) 3 =
      some ⟨[1, 4 * h, m, 1, 1], R.data⟩ := by
    simp [npExpandDims]
  have eRq : npSqueeze (⟨[1, 4 * h, m, 1, 1], R.data⟩ : Tensor) = ⟨[4 * h, m], R.data⟩ := by
    simp [npSqueeze, h1, h3]
  have eRs : npSplit (⟨[4 * h, m], R.data⟩ : Tensor) 4 =
      some [wChunk R h m 0, wChunk R h m 1, wChunk R h m 2, wChunk R h m 3] := by
    simp [npSplit, wChunk, listProd, List.range_succ, Nat.mul_mod_right, hdiv4]
  have eBq : npSqueeze B = ⟨[8 * p], B.data⟩ := by
    simp [npSqueeze, hBs, h4]
  have eBs : npSplit (⟨[8 * p], B.data⟩ : Tensor) 8 =
      some ((List.range 8).map fun i => ⟨[p], bSub B p i⟩) := by
    simp [npSplit, bSub, listProd, List.range_succ, Nat.mul_mod_right, hdiv8]
  simp only [get_weights, eW1, eW2, eWq, eWs, eR1, eR2, eRq, eRs, eBq, eBs,
    List.range_succ, List.range_zero, List.map_append, List.map_cons, List.map_nil]
  simp [tget, npAdd]

/-- Witness for C3 at gate-chunk sizes h = 1, n = m = 2, p = 1. -/
theorem get_weights_gate_reorder_and_bias_sum_witness :
    get_weights (some tensorW1) "W" (some tensorR1) "R" (some tensorBW) =
      .ok ([wChunk tensorW1 1 2 0, wChunk tensorW1 1 2 2,
            wChunk tensorW1 1 2 1, wChunk tensorW1 1 2 3],
           [wChunk tensorR1 1 2 0, wChunk tensorR1 1 2 2,
            wChunk tensorR1 1 2 1, wChunk tensorR1 1 2 3],
           some [⟨[1], List.zipWith (· + ·) (bSub tensorBW 1 0) (bSub tensorBW 1 4)⟩,
                 ⟨[1], List.zipWith (· + ·) (bSub tensorBW 1 2) (bSub tensorBW 1 6)⟩,
                 ⟨[1], List.zipWith (· + ·) (bSub tensorBW 1 1) (bSub tensorBW 1 5)⟩,
                 ⟨[1], List.zipWith (· + ·) (bSub tensorBW 1 3) (bSub tensorBW 1 7)⟩]) :=
  get_weights_gate_reorder_and_bias_sum 1 2 2 1 tensorW1 tensorR1 tensorBW "W" "R"
    (by decide) (by decide) (by decide) (by decide) (by decide) (by decide)

/-- C9: when the LSTM primary input's known rank is 5 or more, the
rank-expansion chain is not created, the later read of the Python local
`add_nodes` fails, and the conversion ends in an error with no LSTM layer
(of either kind) ever emitted. -/
theorem lstm_rank_ge5_fails_before_lstm_layer (node : Node) (graph : Graph) (s : ConvState)
    (shp : List Nat)
    (hshape : alookup graph.shape_dict (lstmIn0 node) = some shp)
    (hrank : 5 ≤ shp.length) :
    (∃ e, (_convert_lstm node graph s).2 = .error e) ∧
    (∀ l ∈ (_convert_lstm node graph s).1.layers, l ∈ s.layers ∨ isLSTMLayer l = false) := by
  have hFails : Fails (_convert_lstm node graph) := by
    unfold _convert_lstm
    apply fails_step_cont; intro acts
    apply fails_step_cont; intro Ws
    apply fails_step_cont; intro Rs
    apply fails_step_cont; intro Bs
    apply fails_step_cont; intro fw
    apply fails_step_cont; intro input_size
    simp only [hshape, step_cpure]
    apply fails_step_cont; intro batch_size
    apply fails_step_cont; intro u
    rw [if_neg (by omega : ¬ shp.length < 5)]
    simp only [step_cpure]
    apply fails_step_left
    by_cases hd : lstmDirection node = 1
    · simp only [if_pos hd]
      apply fails_step_cont; intro peepholes
      exact fails_step_left _ _ (fails_cthrow _)
    · simp only [if_neg hd]
      by_cases hd2 : lstmDirection node = 2
      · simp only [if_pos hd2]
        apply fails_step_cont; intro u2
        apply fails_step_cont; intro bw
        apply fails_step_cont; intro u3
        exact fails_step_left _ _ (fails_cthrow _)
      · simp only [if_neg hd2]
        exact fails_cthrow _
  have hEmits : EmitsOnly (fun l => isLSTMLayer l = false) (_convert_lstm node graph) := by
    unfold _convert_lstm
    apply emitsOnly_step
    · split
      · split
        · exact emitsOnly_cthrow _
        · exact emitsOnly_cpure _
      · exact emitsOnly_cpure _
    intro acts
    apply emitsOnly_step
    · split
      · exact emitsOnly_cthrow _
      · split
        · exact emitsOnly_cthrow _
        · exact emitsOnly_cpure _
    intro Ws
    apply emitsOnly_step
    · split
      · exact emitsOnly_cthrow _
      · split
        · exact emitsOnly_cthrow _
        · exact emitsOnly_cpure _
    intro Rs
    apply emitsOnly_step
    · split
      · exact emitsOnly_cpure _
      · split
        · exact emitsOnly_cthrow _
        · exact emitsOnly_cpure _
    intro Bs
    apply emitsOnly_step
    · split
      · exact emitsOnly_cthrow _
      · exact emitsOnly_cpure _
    intro fw
    apply emitsOnly_step
    · split
      · exact emitsOnly_cthrow _
      · exact emitsOnly_cpure _
    intro input_size
    simp only [hshape, step_cpure]
    apply emitsOnly_step
    · split
      · exact emitsOnly_cthrow _
      · exact emitsOnly_cpure _
    intro batch_size
    apply emitsOnly_step
    · split
      · exact emitsOnly_emit rfl
      · exact emitsOnly_cpure _
    intro u
    rw [if_neg (by omega : ¬ shp.length < 5)]
    simp only [step_cpure]
    apply emitsOnly_step
    · by_cases hd : lstmDirection node = 1
      · simp only [if_pos hd]
        apply emitsOnly_step
        · split
          · exact emitsOnly_step (emitsOnly_emit rfl) fun _ => emitsOnly_cpure _
          · exact emitsOnly_cpure _
        intro peepholes
        intro s' l hl
        exact Or.inl hl
      · simp only [if_neg hd]
        by_cases hd2 : lstmDirection node = 2
        · simp only [if_pos hd2]
          apply emitsOnly_step
          · split
            · exact emitsOnly_cthrow _
            · exact emitsOnly_cpure _
          intro u2
          apply emitsOnly_step
          · split
            · exact emitsOnly_cthrow _
            · exact emitsOnly_cpure _
          intro bw
          apply emitsOnly_step
          · split
            · exact emitsOnly_step (emitsOnly_emit rfl) fun _ => emitsOnly_emit rfl
            · exact emitsOnly_cpure _
          intro u3
          intro s' l hl
          exact Or.inl hl
        · simp only [if_neg hd2]
          exact emitsOnly_cthrow _
    intro u4
    apply emitsOnly_step
    · exact emitsOnly_emit rfl
    intro u5
    apply emitsOnly_step
    · exact emitsOnly_emit rfl
    intro u6
    apply emitsOnly_step
    · exact emitsOnly_emit rfl
    intro u7
    apply emitsOnly_step
    · exact emitsOnly_emit rfl
    intro u8
    exact emitsOnly_emit rfl
  exact ⟨hFails s, hEmits s⟩

/-- Witness for C9 at a concrete LSTM node over a rank-5 input shape. -/
theorem lstm_rank_ge5_fails_before_lstm_layer_witness :
    (∃ e, (_convert_lstm nodeFwd graphXrank5 state0).2 = .error e) ∧
    (∀ l ∈ (_convert_lstm nodeFwd graphXrank5 state0).1.layers,
      l ∈ state0.layers ∨ isLSTMLayer l = false) :=
  lstm_rank_ge5_fails_before_lstm_layer nodeFwd graphXrank5 state0 [1, 1, 1, 1, 1]
    (by decide) (by decide)

/-- C10: every bidirectional LSTM layer the LSTM converter ever emits carries
no peephole weights (forward and backward peephole parameters are both absent),
even when the node supplies a peephole-weights input; at a concrete
bidirectional node with peephole input "P", the peephole reshape and split
layers are emitted with outputs "P_f"/"P_b", but the single bidirectional LSTM
layer neither references those names nor carries peephole parameters. -/
theorem bidir_lstm_peepholes_dropped :
    (∀ (node : Node) (graph : Graph) (s : ConvState),
      ∀ l ∈ (_convert_lstm node graph s).1.layers, l ∈ s.layers ∨ bidirPeepsNone l = true) ∧
    ((_convert_lstm nodeBidirC10 graphX432 state0).2 = .ok () ∧
     (_convert_lstm nodeBidirC10 graphX432 state0).1.layers.contains
       (.reshapeStatic "L_peephole_reshape" "P" "P_reshaped" [2, 1, 1, 1]) = true ∧
     (_convert_lstm nodeBidirC10 graphX432 state0).1.layers.contains
       (.splitND "L_peephole_split" "P_reshaped" ["P_f", "P_b"] 0) = true ∧
     ((_convert_lstm nodeBidirC10 graphX432 state0).1.layers.filter
       isBiDirLSTMLayer).length = 1 ∧
     ((_convert_lstm nodeBidirC10 graphX432 state0).1.layers.filter
       isBiDirLSTMLayer).all (fun l => bidirPeepsNone l &&
         !(bidirInputNames l).contains "P_f" && !(bidirInputNames l).contains "P_b") = true) := by
  constructor
  · intro node graph s
    have hEmits : EmitsOnly (fun l => bidirPeepsNone l = true) (_convert_lstm node graph) := by
      unfold _convert_lstm
      apply emitsOnly_step
      · split
        · split
          · exact emitsOnly_cthrow _
          · exact emitsOnly_cpure _
        · exact emitsOnly_cpure _
      intro acts
      apply emitsOnly_step
      · split
        · exact emitsOnly_cthrow _
        · split
          · exact emitsOnly_cthrow _
          · exact emitsOnly_cpure _
      intro Ws
      apply emitsOnly_step
      · split
        · exact emitsOnly_cthrow _
        · split
          · exact emitsOnly_cthrow _
          · exact emitsOnly_cpure _
      intro Rs
      apply emitsOnly_step
      · split
        · exact emitsOnly_cpure _
        · split
          · exact emitsOnly_cthrow _
          · exact emitsOnly_cpure _
      intro Bs
      apply emitsOnly_step
      · split
        · exact emitsOnly_cthrow _
        · exact emitsOnly_cpure _
      intro fw
      apply emitsOnly_step
      · split
        · exact emitsOnly_cthrow _
        · exact emitsOnly_cpure _
      intro input_size
      apply emitsOnly_step
      · split
        · exact emitsOnly_cthrow _
        · exact emitsOnly_cpure _
      intro inShape
      apply emitsOnly_step
      · split
        · exact emitsOnly_cthrow _
        · exact emitsOnly_cpure _
      intro batch_size
      apply emitsOnly_step
      · split
        · exact emitsOnly_emit rfl
        · exact emitsOnly_cpure _
      intro u
      apply emitsOnly_step
      · split
        · apply emitsOnly_step
          · exact emitsOnly_emit rfl
          intro u1
          apply emitsOnly_step
          · exact emitsOnly_emit rfl
          intro u2
          apply emitsOnly_step
          · exact emitsOnly_emit rfl
          intro u3
          apply emitsOnly_step
          · apply emitsOnly_lstmExpandLoop
            intro pn pi po pa
            rfl
          intro u4
          exact emitsOnly_cpure _
        · exact emitsOnly_cpure _
      intro add_nodes?
      apply emitsOnly_step
      · split
        · apply emitsOnly_step
          · split
            · exact emitsOnly_step (emitsOnly_emit rfl) fun _ => emitsOnly_cpure _
            · exact emitsOnly_cpure _
          intro peepholes
          apply emitsOnly_step
          · rcases add_nodes? with _ | an
            · exact emitsOnly_cthrow _
            · exact emitsOnly_cpure _
          intro add_nodes
          exact emitsOnly_emit rfl
        · split
          · apply emitsOnly_step
            · split
              · exact emitsOnly_cthrow _
              · exact emitsOnly_cpure _
            intro u5
            apply emitsOnly_step
            · split
              · exact emitsOnly_cthrow _
              · exact emitsOnly_cpure _
            intro bw
            apply emitsOnly_step
            · split
              · exact emitsOnly_step (emitsOnly_emit rfl) fun _ => emitsOnly_emit rfl
              · exact emitsOnly_cpure _
            intro u6
            apply emitsOnly_step
            · rcases add_nodes? with _ | an
              · exact emitsOnly_cthrow _
              · exact emitsOnly_cpure _
            intro add_nodes
            apply emitsOnly_step
            · exact emitsOnly_emit rfl
            intro u7
            apply emitsOnly_step
            · split
              · exact emitsOnly_emit rfl
              · exact emitsOnly_cpure _
            intro u8
            apply emitsOnly_step
            · exact emitsOnly_emit rfl
            intro u9
            apply emitsOnly_step
            · exact emitsOnly_emit rfl
            intro u10
            exact emitsOnly_emit rfl
          · exact emitsOnly_cthrow _
      intro u11
      apply emitsOnly_step
      · exact emitsOnly_emit rfl
      intro u12
      apply emitsOnly_step
      · exact emitsOnly_emit rfl
      intro u13
      apply emitsOnly_step
      · exact emitsOnly_emit rfl
      intro u14
      apply emitsOnly_step
      · exact emitsOnly_emit rfl
      intro u15
      exact emitsOnly_emit rfl
    exact hEmits s
  · decide

/-- Witness for C10: the universal no-peephole property applied to a concrete
emitted layer of the concrete bidirectional run. -/
theorem bidir_lstm_peepholes_dropped_witness :
    (Layer.expandDims "L_expand_in_0" "X" "X_expand_out_0" [3]) ∈ state0.layers ∨
      bidirPeepsNone (.expandDims "L_expand_in_0" "X" "X_expand_out_0" [3]) = true :=
  bidir_lstm_peepholes_dropped.1 nodeBidirC10 graphX432 state0
    (.expandDims "L_expand_in_0" "X" "X_expand_out_0" [3]) (by decide)

/-! Lemmas about the guarded constant-materialization helper. -/

theorem countLoads_append (c : String) (xs ys : List Layer) :
    countLoads c (xs ++ ys) = countLoads c xs + countLoads c ys := by
  simp [countLoads, List.filter_append]

theorem countLoads_singleton_not (c : String) (l : Layer) (h : isLoadOf c l = false) :
    countLoads c [l] = 0 := by
  simp [countLoads, h]

theorem countLoads_singleton_load (c ln : String) (t : Tensor) (sh : List Int) :
    countLoads c [.loadConstantND ln c t sh] = 1 := by
  simp [countLoads, isLoadOf]

theorem contains_push_self (l : List String) (c : String) : (l ++ [c]).contains c = true := by
  simp

theorem contains_push_ne (l : List String) (c x : String) (h : x ≠ c) :
    (l ++ [x]).contains c = l.contains c := by
  simp
  exact fun hcx => absurd hcx.symm h

theorem step_run_ok {β : Type} {m : ConvM Unit} {f : Unit → ConvM β} {s : ConvState}
    (h : (m s).2 = .ok ()) : step m f s = f () ((m s).1) := by
  unfold step
  rcases hm : m s with ⟨s', r⟩
  rw [hm] at h
  cases r with
  | ok a => cases a; rfl
  | error e => exact Except.noConfusion h

theorem loadIfConstant_skip_none (node : Node) (idx : Nat) (ln : String) (s : ConvState)
    (h : alookup node.input_tensors (pyGet node.inputs idx) = none) :
    loadIfConstant node idx ln s = (s, .ok ()) := by
  simp [loadIfConstant, step, getS, cpure, h]

theorem loadIfConstant_skip_loaded (node : Node) (idx : Nat) (ln : String) (s : ConvState)
    (t : Tensor)
    (ht : alookup node.input_tensors (pyGet node.inputs idx) = some t)
    (hc : s.constants_loaded.contains (pyGet node.inputs idx) = true) :
    loadIfConstant node idx ln s = (s, .ok ()) := by
  have hm' : pyGet node.inputs idx ∈ s.constants_loaded := by simpa using hc
  simp [loadIfConstant, step, getS, cpure, ht, hm']

theorem loadIfConstant_load (node : Node) (idx : Nat) (ln : String) (s : ConvState)
    (t : Tensor)
    (ht : alookup node.input_tensors (pyGet node.inputs idx) = some t)
    (hc : s.constants_loaded.contains (pyGet node.inputs idx) = false) :
    loadIfConstant node idx ln s =
      ({ layers := s.layers ++ [.loadConstantND ln (pyGet node.inputs idx) t
          (if t.shape = [] then [1] else t.shape.map Int.ofNat)],
         constants_loaded := s.constants_loaded ++ [pyGet node.inputs idx] }, .ok ()) := by
  have hm' : pyGet node.inputs idx ∉ s.constants_loaded := by simpa using hc
  simp [loadIfConstant, step, getS, cpure, emit, markLoaded, ht, hm']

theorem loadIfConstant_preserve (node : Node) (idx : Nat) (ln c : String) (s : ConvState)
    (hc : s.constants_loaded.contains c = true) :
    (loadIfConstant node idx ln s).2 = .ok () ∧
    countLoads c ((loadIfConstant node idx ln s).1.layers) = countLoads c s.layers ∧
    (loadIfConstant node idx ln s).1.constants_loaded.contains c = true := by
  rcases hT : alookup node.input_tensors (pyGet node.inputs idx) with _ | t
  · rw [loadIfConstant_skip_none node idx ln s hT]
    exact ⟨rfl, rfl, hc⟩
  · cases hC : s.constants_loaded.contains (pyGet node.inputs idx) with
    | true =>
      rw [loadIfConstant_skip_loaded node idx ln s t hT hC]
      exact ⟨rfl, rfl, hc⟩
    | false =>
      have hne : pyGet node.inputs idx ≠ c := by
        intro he
        rw [he, hc] at hC
        exact Bool.noConfusion hC
      rw [loadIfConstant_load node idx ln s t hT hC]
      have hside : isLoadOf c (Layer.loadConstantND ln (pyGet node.inputs idx) t
          (if t.shape = [] then [1] else t.shape.map Int.ofNat)) = false := by
        simp [isLoadOf]
        exact hne
      refine ⟨rfl, ?_, ?_⟩
      · rw [countLoads_append, countLoads_singleton_not c _ hside, Nat.add_zero]
      · rw [contains_push_ne _ _ _ hne]
        exact hc

theorem loadIfConstant_miss (node : Node) (idx : Nat) (ln c : String) (s : ConvState)
    (hc : s.constants_loaded.contains c = false)
    (hne : pyGet node.inputs idx ≠ c) :
    (loadIfConstant node idx ln s).2 = .ok () ∧
    countLoads c ((loadIfConstant node idx ln s).1.layers) = countLoads c s.layers ∧
    (loadIfConstant node idx ln s).1.constants_loaded.contains c = false := by
  rcases hT : alookup node.input_tensors (pyGet node.inputs idx) with _ | t
  · rw [loadIfConstant_skip_none node idx ln s hT]
    exact ⟨rfl, rfl, hc⟩
  · cases hC : s.constants_loaded.contains (pyGet node.inputs idx) with
    | true =>
      rw [loadIfConstant_skip_loaded node idx ln s t hT hC]
      exact ⟨rfl, rfl, hc⟩
    | false =>
      rw [loadIfConstant_load node idx ln s t hT hC]
      have hside : isLoadOf c (Layer.loadConstantND ln (pyGet node.inputs idx) t
          (if t.shape = [] then [1] else t.shape.map Int.ofNat)) = false := by
        simp [isLoadOf]
        exact hne
      refine ⟨rfl, ?_, ?_⟩
      · rw [countLoads_append, countLoads_singleton_not c _ hside, Nat.add_zero]
      · rw [contains_push_ne _ _ _ hne]
        exact hc

theorem loadIfConstant_hit (node : Node) (idx : Nat) (ln c : String) (s : ConvState)
    (t : Tensor)
    (ht : alookup node.input_tensors c = some t)
    (hc : s.constants_loaded.contains c = false)
    (heq : pyGet node.inputs idx = c) :
    (loadIfConstant node idx ln s).2 = .ok () ∧
    countLoads c ((loadIfConstant node idx ln s).1.layers) = countLoads c s.layers + 1 ∧
    (loadIfConstant node idx ln s).1.constants_loaded.contains c = true := by
  have ht' : alookup node.input_tensors (pyGet node.inputs idx) = some t := by rw [heq]; exact ht
  have hc' : s.constants_loaded.contains (pyGet node.inputs idx) = false := by rw [heq]; exact hc
  rw [loadIfConstant_load node idx ln s t ht' hc']
  refine ⟨rfl, ?_, ?_⟩
  · rw [countLoads_append, heq, countLoads_singleton_load]
  · rw [heq]
    exact contains_push_self _ c

theorem loadConstantInputs_preserve (node : Node) (c : String) (L : List Nat) :
    ∀ s : ConvState, s.constants_loaded.contains c = true →
      (loadConstantInputs node L s).2 = .ok () ∧
      countLoads c ((loadConstantInputs node L s).1.layers) = countLoads c s.layers ∧
      (loadConstantInputs node L s).1.constants_loaded.contains c = true := by
  induction L with
  | nil =>
    intro s hc
    exact ⟨rfl, rfl, hc⟩
  | cons j rest ih =>
    intro s hc
    have h1 := loadIfConstant_preserve node j (node.name ++ "_load_constant_" ++ toString j) c s hc
    rw [loadConstantInputs, step_run_ok h1.1]
    have h2 := ih _ h1.2.2
    exact ⟨h2.1, by rw [h2.2.1, h1.2.1], h2.2.2⟩

theorem loadConstantInputs_first (node : Node) (c : String) (t : Tensor)
    (ht : alookup node.input_tensors c = some t) (L : List Nat) :
    ∀ s : ConvState, s.constants_loaded.contains c = false →
      (∃ i ∈ L, pyGet node.inputs i = c) →
      (loadConstantInputs node L s).2 = .ok () ∧
      countLoads c ((loadConstantInputs node L s).1.layers) = countLoads c s.layers + 1 ∧
      (loadConstantInputs node L s).1.constants_loaded.contains c = true := by
  induction L with
  | nil =>
    rintro s hc ⟨i, hi, _⟩
    exact absurd hi (List.not_mem_nil i)
  | cons j rest ih =>
    rintro s hc ⟨i, hi, hic⟩
    by_cases hj : pyGet node.inputs j = c
    · have h1 := loadIfConstant_hit node j (node.name ++ "_load_constant_" ++ toString j) c s t
        ht hc hj
      rw [loadConstantInputs, step_run_ok h1.1]
      have h2 := loadConstantInputs_preserve node c rest _ h1.2.2
      exact ⟨h2.1, by rw [h2.2.1, h1.2.1], h2.2.2⟩
    · have h1 := loadIfConstant_miss node j (node.name ++ "_load_constant_" ++ toString j) c s
        hc hj
      rw [loadConstantInputs, step_run_ok h1.1]
      have hirest : i ∈ rest := by
        rcases List.mem_cons.mp hi with rfl | hr
        · exact absurd hic hj
        · exact hr
      have h2 := ih _ h1.2.2 ⟨i, hirest, hic⟩
      exact ⟨h2.1, by rw [h2.2.1, h1.2.1], h2.2.2⟩

theorem runGuarded_first (g : GuardedOp) (node : Node) (graph : Graph) (c : String)
    (t : Tensor) (hmem : c ∈ node.inputs) (ht : alookup node.input_tensors c = some t)
    (hg : g = .gatherOp → node.inputs.length = 2) :
    ∀ s : ConvState, s.constants_loaded.contains c = false →
      (runGuarded g node graph s).2 = .ok () ∧
      countLoads c ((runGuarded g node graph s).1.layers) = countLoads c s.layers + 1 ∧
      (runGuarded g node graph s).1.constants_loaded.contains c = true := by
  rcases List.mem_iff_getElem.mp hmem with ⟨i, hilen, hieq⟩
  have hpy : pyGet node.inputs i = c := by
    rw [pyGet, List.getD_eq_getElem node.inputs "" hilen]
    exact hieq
  cases g with
  | concatOp =>
    intro s hc
    have h1 := loadConstantInputs_first node c t ht (List.range node.inputs.length) s hc
      ⟨i, List.mem_range.mpr hilen, hpy⟩
    simp only [runGuarded, _convert_concat]
    rw [step_run_ok h1.1]
    refine ⟨rfl, ?_, ?_⟩
    · simp only [emit, countLoads_append]
      rw [h1.2.1, countLoads_singleton_not c _ (by simp [isLoadOf]), Nat.add_zero]
    · simpa [emit] using h1.2.2
  | gatherOp =>
    intro s hc
    have hlen : node.inputs.length = 2 := hg rfl
    have hi2 : i < 2 := by omega
    simp only [runGuarded, _convert_gather]
    rw [if_neg (by omega : ¬ node.inputs.length ≠ 2), step_cpure]
    by_cases h0 : pyGet node.inputs 0 = c
    · have h1 := loadIfConstant_hit node 0 (node.name ++ "_load_data") c s t ht hc h0
      rw [step_run_ok h1.1]
      have h2 := loadIfConstant_preserve node 1 (node.name ++ "_load_indices") c _ h1.2.2
      rw [step_run_ok h2.1]
      refine ⟨rfl, ?_, ?_⟩
      · simp only [emit, countLoads_append]
        rw [h2.2.1, h1.2.1, countLoads_singleton_not c _ (by simp [isLoadOf]), Nat.add_zero]
      · simpa [emit] using h2.2.2
    · have h1c : pyGet node.inputs 1 = c := by
        interval_cases i
        · exact absurd hpy h0
        · exact hpy
      have h1 := loadIfConstant_miss node 0 (node.name ++ "_load_data") c s hc h0
      rw [step_run_ok h1.1]
      have h2 := loadIfConstant_hit node 1 (node.name ++ "_load_indices") c _ t ht h1.2.2 h1c
      rw [step_run_ok h2.1]
      refine ⟨rfl, ?_, ?_⟩
      · simp only [emit, countLoads_append]
        rw [h2.2.1, h1.2.1, countLoads_singleton_not c _ (by simp [isLoadOf]), Nat.add_zero]
      · simpa [emit] using h2.2.2

theorem runGuarded_again (g : GuardedOp) (node : Node) (graph : Graph) (c : String)
    (hg : g = .gatherOp → node.inputs.length = 2) :
    ∀ s : ConvState, s.constants_loaded.contains c = true →
      (runGuarded g node graph s).2 = .ok () ∧
      countLoads c ((runGuarded g node graph s).1.layers) = countLoads c s.layers ∧
      (runGuarded g node graph s).1.constants_loaded.contains c = true := by
  cases g with
  | concatOp =>
    intro s hc
    have h1 := loadConstantInputs_preserve node c (List.range node.inputs.length) s hc
    simp only [runGuarded, _convert_concat]
    rw [step_run_ok h1.1]
    refine ⟨rfl, ?_, ?_⟩
    · simp only [emit, countLoads_append]
      rw [h1.2.1, countLoads_singleton_not c _ (by simp [isLoadOf]), Nat.add_zero]
    · simpa [emit] using h1.2.2
  | gatherOp =>
    intro s hc
    have hlen : node.inputs.length = 2 := hg rfl
    simp only [runGuarded, _convert_gather]
    rw [if_neg (by omega : ¬ node.inputs.length ≠ 2), step_cpure]
    have h1 := loadIfConstant_preserve node 0 (node.name ++ "_load_data") c s hc
    rw [step_run_ok h1.1]
    have h2 := loadIfConstant_preserve node 1 (node.name ++ "_load_indices") c _ h1.2.2
    rw [step_run_ok h2.1]
    refine ⟨rfl, ?_, ?_⟩
    · simp only [emit, countLoads_append]
      rw [h2.2.1, h1.2.1, countLoads_singleton_not c _ (by simp [isLoadOf]), Nat.add_zero]
    · simpa [emit] using h2.2.2

/-- C1 (amended): among the converters that use the guarded materialization
helper — Concat and Gather — constant loading is idempotent: when two such
nodes sharing an unloaded constant input name are converted in sequence, the
first emits exactly one load-constant layer for that name and records it in
the shared constants-loaded set, and the second emits no further load for it.
(The MatMul converter is excluded: it materializes its constant weight without
consulting or updating the set, as the counterexample shows.) -/
theorem guarded_constant_load_idempotent (g1 g2 : GuardedOp) (n1 n2 : Node)
    (graph : Graph) (s : ConvState) (c : String) (t1 t2 : Tensor)
    (h1mem : c ∈ n1.inputs) (h1t : alookup n1.input_tensors c = some t1)
    (_h2mem : c ∈ n2.inputs) (_h2t : alookup n2.input_tensors c = some t2)
    (hnew : s.constants_loaded.contains c = false)
    (hg1 : g1 = .gatherOp → n1.inputs.length = 2)
    (hg2 : g2 = .gatherOp → n2.inputs.length = 2) :
    countLoads c ((runGuarded g2 n2 graph ((runGuarded g1 n1 graph s).1)).1.layers) =
      countLoads c s.layers + 1 ∧
    (runGuarded g2 n2 graph ((runGuarded g1 n1 graph s).1)).1.constants_loaded.contains c =
      true := by
  have h1 := runGuarded_first g1 n1 graph c t1 h1mem h1t hg1 s hnew
  have h2 := runGuarded_again g2 n2 graph c hg2 _ h1.2.2
  exact ⟨by rw [h2.2.1, h1.2.1], h2.2.2⟩

/-- Witness for C1 (amended): two Concat nodes sharing the constant input "c"
produce exactly one load-constant layer for it. -/
theorem guarded_constant_load_idempotent_witness :
    countLoads "c" ((runGuarded .concatOp nodeConcatC1 graphC1
      ((runGuarded .concatOp nodeConcatC1 graphC1 state0).1)).1.layers) =
      countLoads "c" state0.layers + 1 ∧
    (runGuarded .concatOp nodeConcatC1 graphC1
      ((runGuarded .concatOp nodeConcatC1 graphC1 state0).1)).1.constants_loaded.contains "c" =
      true :=
  guarded_constant_load_idempotent .concatOp .concatOp nodeConcatC1 nodeConcatC1 graphC1
    state0 "c" tensorC1 tensorC1 (by decide) (by decide) (by decide) (by decide) (by decide)
    (by intro h; exact GuardedOp.noConfusion h) (by intro h; exact GuardedOp.noConfusion h)

/-- C5 counterexample: on data of static shape [4, 4], `starts=[0]`,
`ends=[100]`, `axes=[0]` makes the converter clear the axis-0 end mask (the
code's disjunction fires because 100 differs from `2^30`), while the claim's
rule — mask true unless the bound is below `2^30` AND below the axis size —
keeps it true, since 100 is not below the axis size 4. -/
theorem slice_end_mask_or_vs_spec_and :
    (_convert_slice nodeSliceC5 graphC1 state0).1.layers =
      [.sliceStatic "sl" "x" "so" [0, 0] [100, 0] [1, 1] [true, true] [false, true]] ∧
    sliceEndMaskSpec 100 4 = true := by decide

theorem sliceLoop_spec (shape : List Nat) (axes ipS ipE : List Int)
    (hS : axes.length ≤ ipS.length) (hE : axes.length ≤ ipE.length)
    (hax : ∀ j, j < axes.length → 0 ≤ axes.getD j 0 ∧ axes.getD j 0 < (shape.length : Int)) :
    ∀ js : List Nat, (∀ j ∈ js, j < axes.length) →
    ∀ starts ends bm em, bm.length = shape.length → em.length = shape.length →
    ∃ r : List Int × List Int × List Bool × List Bool,
      sliceLoop shape axes (some ipS) (some ipE) js starts ends bm em = some r ∧
      r.2.2.1.length = shape.length ∧ r.2.2.2.length = shape.length ∧
      (∀ a, a < shape.length →
        r.2.2.1.getD a true = (bm.getD a true &&
          !(js.any fun j => (axes.getD j 0 == (a : Int)) && (ipS.getD j 0 != 0)))) ∧
      (∀ a, a < shape.length →
        r.2.2.2.getD a true = (em.getD a true &&
          !(js.any fun j => (axes.getD j 0 == (a : Int)) &&
            ((ipE.getD j 0 != INT_MAX) || (ipE.getD j 0 < (shape.getD a 0 : Int)))))) := by
  intro js
  induction js with
  | nil =>
    intro _ starts ends bm em hbm hem
    exact ⟨(starts, ends, bm, em), rfl, hbm, hem, fun a _ => by simp, fun a _ => by simp⟩
  | cons j jtl ih =>
    intro hjs starts ends bm em hbm hem
    have hj : j < axes.length := hjs j (List.mem_cons_self j jtl)
    have hjS : j < ipS.length := lt_of_lt_of_le hj hS
    have hjE : j < ipE.length := lt_of_lt_of_le hj hE
    have hax' := hax j hj
    have e1 : axes.get? j = some (axes.getD j 0) := by
      simp [List.getD_eq_getElem?_getD, List.get?_eq_getElem?, List.getElem?_eq_getElem hj]
    have e2 : ipS.get? j = some (ipS.getD j 0) := by
      simp [List.getD_eq_getElem?_getD, List.get?_eq_getElem?, List.getElem?_eq_getElem hjS]
    have e3 : ipE.get? j = some (ipE.getD j 0) := by
      simp [List.getD_eq_getElem?_getD, List.get?_eq_getElem?, List.getElem?_eq_getElem hjE]
    have e4 : pyAxisIdx shape.length (axes.getD j 0) = some (axes.getD j 0).toNat := by
      unfold pyAxisIdx
      rw [if_pos ⟨hax'.1, hax'.2⟩]
    set v := axes.getD j 0 with hvdef
    set sv := ipS.getD j 0 with hsvdef
    set ev := ipE.getD j 0 with hevdef
    set ca := v.toNat with hcadef
    have hca : ca < shape.length := by omega
    have hcaInt : (ca : Int) = v := Int.toNat_of_nonneg hax'.1
    rw [sliceLoop]
    simp only [Option.some_bind, e1, e2, e3, e4]
    have hbm' : (if sv ≠ 0 then bm.set ca false else bm).length = shape.length := by
      split <;> simp [hbm]
    have hem' :
        (if ev ≠ INT_MAX ∨ ev < (shape.getD ca 0 : Int)
          then em.set ca false else em).length = shape.length := by
      split <;> simp [hem]
    obtain ⟨r, hr, hlen1, hlen2, hbms, hems⟩ :=
      ih (fun x hx => hjs x (List.mem_cons_of_mem _ hx))
        (starts.set ca sv) (ends.set ca ev)
        (if sv ≠ 0 then bm.set ca false else bm)
        (if ev ≠ INT_MAX ∨ ev < (shape.getD ca 0 : Int) then em.set ca false else em)
        hbm' hem'
    refine ⟨r, hr, hlen1, hlen2, ?_, ?_⟩
    · intro a ha
      rw [hbms a ha, List.any_cons]
      by_cases hEq : v = (a : Int)
      · have hcaa : ca = a := by omega
        by_cases hsv0 : sv = 0
        · rw [if_neg (by omega : ¬ sv ≠ 0)]
          have hfj : ((v == (a : Int)) && (sv != 0)) = false := by
            simp [hsv0]
          rw [hfj, Bool.false_or]
        · rw [if_pos hsv0, hcaa]
          have hset : (bm.set a false).getD a true = false := by
            simp [List.getD_eq_getElem?_getD, List.getElem?_set_self, hbm ▸ ha]
          have hfj : ((v == (a : Int)) && (sv != 0)) = true := by
            simp [hEq, hsv0]
          rw [hset, hfj, Bool.true_or]
          simp
      · have hcane : ca ≠ a := by omega
        have hgd : (if sv ≠ 0 then bm.set ca false else bm).getD a true = bm.getD a true := by
          split
          · simp only [List.getD_eq_getElem?_getD, List.getElem?_set_ne hcane]
          · rfl
        have hfj : ((v == (a : Int)) && (sv != 0)) = false := by
          simp [hEq]
        rw [hgd, hfj, Bool.false_or]
    · intro a ha
      rw [hems a ha, List.any_cons]
      by_cases hEq : v = (a : Int)
      · have hcaa : ca = a := by omega
        by_cases hev : ev ≠ INT_MAX ∨ ev < (shape.getD a 0 : Int)
        · rw [if_pos (by rw [hcaa]; exact hev), hcaa]
          have hset : (em.set a false).getD a true = false := by
            simp [List.getD_eq_getElem?_getD, List.getElem?_set_self, hem ▸ ha]
          have hfj : ((v == (a : Int)) &&
              ((ev != INT_MAX) || decide (ev < (shape.getD a 0 : Int)))) = true := by
            rcases hev with hev | hev
            · simp [hEq, hev]
            · simp [hEq]
              exact Or.inr (by simpa using hev)
          rw [hset, hfj, Bool.true_or]
          simp
        · rw [if_neg (by rw [hcaa]; exact hev)]
          push_neg at hev
          have h1 : (ev != INT_MAX) = false := by simp [hev.1]
          have h2 : decide (ev < (shape.getD a 0 : Int)) = false := by
            simp only [decide_eq_false_iff_not]
            exact not_lt.mpr hev.2
          have hfj : ((v == (a : Int)) &&
              ((ev != INT_MAX) || decide (ev < (shape.getD a 0 : Int)))) = false := by
            rw [h1, h2]
            simp
          rw [hfj, Bool.false_or]
      · have hcane : ca ≠ a := by omega
        have hgd :
            (if ev ≠ INT_MAX ∨ ev < (shape.getD ca 0 : Int)
              then em.set ca false else em).getD a true = em.getD a true := by
          split
          · simp only [List.getD_eq_getElem?_getD, List.getElem?_set_ne hcane]
          · rfl
        have hfj : ((v == (a : Int)) &&
            ((ev != INT_MAX) || decide (ev < (shape.getD a 0 : Int)))) = false := by
          simp [hEq]
        rw [hgd, hfj, Bool.false_or]


/-- C5 (amended): for a Slice node over data of known static shape with
explicit non-negative in-range axes, the emitted static-slice layer's begin
mask at an axis is true unless that axis is listed with a non-zero start, and
its end mask is true unless that axis is listed with an end bound that differs
from the sentinel `2^30` or is below the axis's known static size — the
source's literal disjunction (axes not listed keep both masks true). -/
theorem slice_masks_literal_semantics (node : Node) (graph : Graph) (s : ConvState)
    (ds : List Nat) (ipS ipE axes : List Int)
    (hds : alookup graph.shape_dict (pyGet node.inputs 0) = some ds)
    (hstarts : attrInts? node "starts" = some ipS)
    (hends : attrInts? node "ends" = some ipE)
    (haxes : attrInts? node "axes" = some axes)
    (hS : axes.length ≤ ipS.length) (hE : axes.length ≤ ipE.length)
    (hax : ∀ j, j < axes.length → 0 ≤ axes.getD j 0 ∧ axes.getD j 0 < (ds.length : Int)) :
    ∃ st en,
      _convert_slice node graph s =
        ({ s with layers := s.layers ++
          [.sliceStatic node.name (pyGet node.inputs 0) (pyGet node.outputs 0) st en
            ((attrInts? node "steps").getD (List.replicate ds.length 1))
            ((List.range ds.length).map (beginMaskCode axes ipS))
            ((List.range ds.length).map (endMaskCode ds axes ipE))] }, .ok ()) := by
  obtain ⟨r, hr, hlen1, hlen2, hbm, hem⟩ := sliceLoop_spec ds axes ipS ipE hS hE hax
    (List.range axes.length) (fun j hj => List.mem_range.mp hj)
    (List.replicate ds.length 0) (List.replicate ds.length 0)
    (List.replicate ds.length true) (List.replicate ds.length true)
    (by simp) (by simp)
  have hbmeq : r.2.2.1 = (List.range ds.length).map (beginMaskCode axes ipS) := by
    apply List.ext_getElem
    · simp [hlen1]
    · intro i h1 h2
      have hi : i < ds.length := by simpa [hlen1] using h1
      have hgd := hbm i hi
      rw [List.getD_eq_getElem _ _ (by omega)] at hgd
      have hrep : (List.replicate ds.length true).getD i true = true := by
        simp [List.getD_eq_getElem?_getD, List.getElem?_replicate, hi]
      rw [hrep, Bool.true_and] at hgd
      rw [hgd]
      simp [beginMaskCode]
  have hemeq : r.2.2.2 = (List.range ds.length).map (endMaskCode ds axes ipE) := by
    apply List.ext_getElem
    · simp [hlen2]
    · intro i h1 h2
      have hi : i < ds.length := by simpa [hlen2] using h1
      have hgd := hem i hi
      rw [List.getD_eq_getElem _ _ (by omega)] at hgd
      have hrep : (List.replicate ds.length true).getD i true = true := by
        simp [List.getD_eq_getElem?_getD, List.getElem?_replicate, hi]
      rw [hrep, Bool.true_and] at hgd
      rw [hgd]
      simp [endMaskCode]
  refine ⟨r.1, r.2.1, ?_⟩
  unfold _convert_slice
  simp only [hds, hstarts, hends, haxes, Option.getD_some, hr, hbmeq, hemeq]
  simp [emit]

/-- Witness for C5 (amended) at the spec's own example: starts=[1], ends=[2],
axes=[0] over static shape [4, 4]. -/
theorem slice_masks_literal_semantics_witness :
    ∃ st en,
      _convert_slice nodeSliceWit graphC1 state0 =
        ({ state0 with layers := state0.layers ++
          [.sliceStatic "sl" "x" "so" st en
            ((attrInts? nodeSliceWit "steps").getD (List.replicate 2 1))
            ((List.range 2).map (beginMaskCode [0] [1]))
            ((List.range 2).map (endMaskCode [4, 4] [0] [2]))] }, .ok ()) :=
  slice_masks_literal_semantics nodeSliceWit graphC1 state0 [4, 4] [1] [2] [0]
    (by decide) (by decide) (by decide) (by decide) (by decide) (by decide)
    (by
      intro j hj
      have hj0 : j = 0 := by simpa using hj
      subst hj0
      decide)

end OnnxCoreml
